import Mathlib

/-! InfinityChaser: the simulation core.

A shallow embedding of the endless-runner core found in
`src/hooks/useGameLoop.js` (frame gate, constants, collision test, difficulty
curve) and `src/components/GameCanvas.jsx` (player intents, physics, obstacle
spawning, advancement, culling, collision and score accounting), together
with the session state machine of `src/App.jsx` and the milestone test of
`src/components/HUD.jsx`.

Conventions of the embedding.

* JavaScript numbers that carry coordinates, velocities and times are exact
  rationals (`ℚ`); the score and the frame counters are integers (`Int`).
  Rounding of IEEE doubles is not modelled.
* The three mutable cells `playerRef`, `obstaclesRef` and `gameStateRef` are
  the fields of `Game`; every operation takes the old value and returns the
  new one.
* Calls of the host callbacks `onScoreUpdate`, `onGameOver` and of `playSound`
  are recorded, in call order, as a list of `Event`s.
* Readings of the environment made inside a tick (`performance.now()`,
  `Math.random()`, `Date.now()`) are the fields of `TickEnv`.
* The one division of the core, by `difficultyMultiplier` in `spawnObstacle`,
  yields `Infinity` in JavaScript when the divisor is zero; the quotient is
  therefore taken in `WithTop ℚ` (`spawnInterval`).
* The React mirror `playerState` (used only for display) and `draw()` do not
  feed back into the simulation and are left out.
-/

set_option autoImplicit false

namespace InfinityChaser

/-! ## Constants (`GAME_CONFIG`) -/

namespace GAME_CONFIG

def PLAYER_JUMP_SPEED : ℚ := 15
def PLAYER_DUCK_DURATION : ℚ := 500
def GRAVITY : ℚ := 8 / 10
def GROUND_SPEED : ℚ := 5
def OBSTACLE_SPEED : ℚ := 5
def OBSTACLE_SPAWN_INTERVAL : ℚ := 2000
def DIFFICULTY_INCREASE_INTERVAL : ℚ := 10000
def SCORE_INCREMENT : Int := 1
def CANVAS_WIDTH : ℚ := 800
def CANVAS_HEIGHT : ℚ := 400
def PLAYER_WIDTH : ℚ := 40
def PLAYER_HEIGHT : ℚ := 60
def OBSTACLE_WIDTH : ℚ := 30
def OBSTACLE_HEIGHT : ℚ := 60

end GAME_CONFIG

open GAME_CONFIG

/-! ## Data model -/

/-- An axis-aligned rectangle: the part of a player or obstacle object that
`checkCollision` reads. -/
structure Rect where
  x : ℚ
  y : ℚ
  width : ℚ
  height : ℚ
deriving DecidableEq, Repr

/-- The object held in `playerRef`. -/
structure Player where
  x : ℚ
  y : ℚ
  width : ℚ
  height : ℚ
  velocityY : ℚ
  isJumping : Bool
  isDucking : Bool
  groundY : ℚ
deriving DecidableEq, Repr

/-- The two values of an obstacle's `type` field: the strings 'high' and 'low'. -/
inductive ObstacleType where
  | high
  | low
deriving DecidableEq, Repr

/-- An element of the array held in `obstaclesRef`. -/
structure Obstacle where
  id : Int
  x : ℚ
  y : ℚ
  width : ℚ
  height : ℚ
  type : ObstacleType
deriving DecidableEq, Repr

/-- The object held in `gameStateRef`. -/
structure GameState where
  score : Int
  lastObstacleSpawn : ℚ
  groundOffset : ℚ
  difficultyMultiplier : ℚ
  lastDifficultyIncrease : ℚ
deriving DecidableEq, Repr

/-- The three mutable cells of `GameCanvas`. -/
structure Game where
  player : Player
  obstacles : List Obstacle
  gameState : GameState
deriving DecidableEq, Repr

/-- The argument of `playSound`. -/
inductive Sound where
  | jump
  | collision
  | score
deriving DecidableEq, Repr

/-- One call made to the outside during an operation: `onScoreUpdate(score)`,
`onGameOver(score)` or `playSound(kind)`. -/
inductive Event where
  | scoreUpdate (score : Int)
  | gameOver (score : Int)
  | sound (kind : Sound)
deriving DecidableEq, Repr

/-- What one call of `updateGame` reads from its environment. -/
structure TickEnv where
  now : ℚ
  random : ℚ
  dateNow : Int
deriving DecidableEq, Repr

def Player.rect (p : Player) : Rect :=
  { x := p.x, y := p.y, width := p.width, height := p.height }

def Obstacle.rect (o : Obstacle) : Rect :=
  { x := o.x, y := o.y, width := o.width, height := o.height }

/-! ## `useGameLoop.js`: pure helpers -/

/-- The function `checkCollision(rect1, rect2)`. -/
def checkCollision (rect1 rect2 : Rect) : Bool :=
  decide (rect1.x < rect2.x + rect2.width) &&
  decide (rect1.x + rect1.width > rect2.x) &&
  decide (rect1.y < rect2.y + rect2.height) &&
  decide (rect1.y + rect1.height > rect2.y)

/-- The function `getDifficultyMultiplier(score)`:
`1 + Math.floor(score / 1000) * 0.2`. -/
def getDifficultyMultiplier (score : Int) : ℚ :=
  1 + ((⌊(score : ℚ) / 1000⌋ : Int) : ℚ) * (2 / 10)

/-! ## `useGameLoop.js`: the frame gate -/

/-- The cells `lastTimeRef`, `fpsRef`, `frameCountRef`, `lastFpsTimeRef`. -/
structure LoopRefs where
  lastTime : ℚ
  fps : Int
  frameCount : Int
  lastFpsTime : ℚ
deriving DecidableEq, Repr

/-- The outcome of one call of `gameLoop`: the cells afterwards, the arguments
of the call `onUpdate(deltaTime, fps)` when it was made, and whether the next
frame was requested. -/
structure LoopResult where
  refs : LoopRefs
  update : Option (ℚ × Int)
  scheduled : Bool
deriving DecidableEq, Repr

/-- The callback `gameLoop(currentTime)` of `useGameLoop`. -/
def gameLoop (isRunning : Bool) (currentTime : ℚ) (r : LoopRefs) : LoopResult :=
  if !isRunning then { refs := r, update := none, scheduled := false }
  else
    let deltaTime := currentTime - r.lastTime
    let r1 := { r with lastTime := currentTime }
    let r2 := { r1 with frameCount := r1.frameCount + 1 }
    let r3 :=
      if currentTime - r2.lastFpsTime ≥ 1000 then
        { r2 with fps := r2.frameCount, frameCount := 0, lastFpsTime := currentTime }
      else r2
    { refs := r3
      update := if deltaTime ≥ 1667 / 100 then some (deltaTime, r3.fps) else none
      scheduled := true }

/-! ## `GameCanvas.jsx`: player intents -/

/-- The function `jump()`. -/
def jump (p : Player) : Player × List Event :=
  ({ p with velocityY := -PLAYER_JUMP_SPEED, isJumping := true }, [Event.sound Sound.jump])

/-- The function `duck()`. -/
def duck (p : Player) : Player :=
  { p with
    isDucking := true
    height := PLAYER_HEIGHT * (5 / 10)
    y := p.groundY + PLAYER_HEIGHT * (5 / 10) }

/-- The function `standUp()`. -/
def standUp (p : Player) : Player :=
  { p with isDucking := false, height := PLAYER_HEIGHT, y := p.groundY }

/-- The listener `handleKeyDown(e)`, with `e.code` as `code`. -/
def handleKeyDown (isGameRunning isPaused : Bool) (code : String) (p : Player) :
    Player × List Event :=
  if !isGameRunning || isPaused then (p, [])
  else if code = "Space" ∨ code = "ArrowUp" ∨ code = "KeyW" then
    if !p.isJumping && !p.isDucking then jump p else (p, [])
  else if code = "ArrowDown" ∨ code = "KeyS" then
    if !p.isJumping then (duck p, []) else (p, [])
  else (p, [])

/-- The listener `handleKeyUp(e)`. -/
def handleKeyUp (code : String) (p : Player) : Player :=
  if code = "ArrowDown" ∨ code = "KeyS" then
    if p.isDucking then standUp p else p
  else p

/-- The listener `handleTouchStart(e)`; `touchY` is the touch position
relative to the top of the canvas and `canvasHeight` the displayed height. -/
def handleTouchStart (isGameRunning isPaused : Bool) (touchY canvasHeight : ℚ) (p : Player) :
    Player × List Event :=
  if !isGameRunning || isPaused then (p, [])
  else if touchY < canvasHeight / 2 then
    if !p.isJumping && !p.isDucking then jump p else (p, [])
  else
    if !p.isJumping then (duck p, []) else (p, [])

/-- The listener `handleTouchEnd(e)`. -/
def handleTouchEnd (p : Player) : Player :=
  if p.isDucking then standUp p else p

/-! ## `GameCanvas.jsx`: one tick -/

/-- The object literal built inside `spawnObstacle`. -/
def newObstacle (dateNow : Int) (obstacleType : ObstacleType) : Obstacle :=
  { id := dateNow
    x := CANVAS_WIDTH
    y := if obstacleType = ObstacleType.high
         then CANVAS_HEIGHT - OBSTACLE_HEIGHT - 50
         else CANVAS_HEIGHT - OBSTACLE_HEIGHT - 100
    width := OBSTACLE_WIDTH
    height := OBSTACLE_HEIGHT
    type := obstacleType }

/-- The quotient `GAME_CONFIG.OBSTACLE_SPAWN_INTERVAL / difficultyMultiplier`
of `spawnObstacle`. For a zero multiplier JavaScript yields `Infinity`, which
is the top element here. -/
def spawnInterval (difficultyMultiplier : ℚ) : WithTop ℚ :=
  if difficultyMultiplier = 0 then ⊤
  else ((OBSTACLE_SPAWN_INTERVAL / difficultyMultiplier : ℚ) : WithTop ℚ)

/-- The function `spawnObstacle(currentTime)`; `random` and `dateNow` are the
values `Math.random()` and `Date.now()` would return. -/
def spawnObstacle (currentTime random : ℚ) (dateNow : Int) (g : Game) : Game :=
  let timeSinceLastSpawn := currentTime - g.gameState.lastObstacleSpawn
  if ((timeSinceLastSpawn : ℚ) : WithTop ℚ) > spawnInterval g.gameState.difficultyMultiplier then
    let obstacleType := if random > 5 / 10 then ObstacleType.high else ObstacleType.low
    let obstacle := newObstacle dateNow obstacleType
    { g with
      obstacles := g.obstacles ++ [obstacle]
      gameState := { g.gameState with lastObstacleSpawn := currentTime } }
  else g

/-- The block "Update difficulty" of `updateGame`. -/
def updateDifficulty (currentTime : ℚ) (gs : GameState) : GameState :=
  if currentTime - gs.lastDifficultyIncrease > DIFFICULTY_INCREASE_INTERVAL then
    { gs with
      difficultyMultiplier := getDifficultyMultiplier gs.score
      lastDifficultyIncrease := currentTime }
  else gs

/-- The block "Update player physics" of `updateGame`. -/
def updatePlayer (p : Player) : Player :=
  if p.isJumping then
    let p1 := { p with velocityY := p.velocityY + GRAVITY }
    let p2 := { p1 with y := p1.y + p1.velocityY }
    if p2.y ≥ p2.groundY then
      { p2 with y := p2.groundY, velocityY := 0, isJumping := false }
    else p2
  else p

/-- What one call of the `filter` callback of `updateGame` does: whether the
obstacle is kept, the obstacle after `obstacle.x -= speed`, the score
afterwards and the calls made. -/
structure CallbackResult where
  keep : Bool
  obstacle : Obstacle
  score : Int
  events : List Event
deriving DecidableEq, Repr

/-- The callback passed to `obstaclesRef.current.filter` in `updateGame`. -/
def obstacleCallback (speed : ℚ) (player : Player) (score : Int) (obstacle : Obstacle) :
    CallbackResult :=
  let obstacle := { obstacle with x := obstacle.x - speed }
  if obstacle.x + obstacle.width < 0 then
    let score := score + SCORE_INCREMENT * 10
    { keep := false
      obstacle := obstacle
      score := score
      events := Event.scoreUpdate score ::
        (if score % 100 = 0 then [Event.sound Sound.score] else []) }
  else if checkCollision player.rect obstacle.rect then
    { keep := false
      obstacle := obstacle
      score := score
      events := [Event.sound Sound.collision, Event.gameOver score] }
  else
    { keep := true, obstacle := obstacle, score := score, events := [] }

/-- The outcome of the whole `filter` pass. -/
structure FilterResult where
  obstacles : List Obstacle
  score : Int
  events : List Event
deriving DecidableEq, Repr

/-- The pass `obstaclesRef.current.filter(callback)`: the callback runs on the
obstacles in list order, each call seeing the score left by the previous one. -/
def filterObstacles (speed : ℚ) (player : Player) : List Obstacle → Int → FilterResult
  | [], score => { obstacles := [], score := score, events := [] }
  | obstacle :: rest, score =>
    let r := obstacleCallback speed player score obstacle
    let rs := filterObstacles speed player rest r.score
    { obstacles := if r.keep then r.obstacle :: rs.obstacles else rs.obstacles
      score := rs.score
      events := r.events ++ rs.events }

/-- The state of `updateGame` when it reaches the block "Update obstacles":
difficulty recomputed if due, player physics integrated, obstacle spawned if
due. -/
def beforeObstacles (env : TickEnv) (g : Game) : Game :=
  spawnObstacle env.now env.random env.dateNow
    { player := updatePlayer g.player
      obstacles := g.obstacles
      gameState := updateDifficulty env.now g.gameState }

/-- The constant `speed` of `updateGame`. -/
def obstacleSpeed (g : Game) : ℚ :=
  OBSTACLE_SPEED * g.gameState.difficultyMultiplier

/-- The block "Update ground animation" of `updateGame`. -/
def updateGround (gs : GameState) : GameState :=
  let gs1 := { gs with groundOffset := gs.groundOffset - GROUND_SPEED * gs.difficultyMultiplier }
  if gs1.groundOffset ≤ -50 then { gs1 with groundOffset := 0 } else gs1

/-- The function `updateGame(deltaTime, fps)`; neither argument is read by
the body. -/
def updateGame (env : TickEnv) (g : Game) : Game × List Event :=
  let g1 := beforeObstacles env g
  let r := filterObstacles (obstacleSpeed g1) g1.player g1.obstacles g1.gameState.score
  let gs2 := updateGround { g1.gameState with score := r.score }
  let gs3 := { gs2 with score := gs2.score + SCORE_INCREMENT }
  ({ player := g1.player, obstacles := r.obstacles, gameState := gs3 },
    r.events ++ [Event.scoreUpdate gs3.score])

/-- The function `resetGame()`. -/
def resetGame (_g : Game) : Game :=
  { player :=
      { x := 100
        y := CANVAS_HEIGHT - PLAYER_HEIGHT - 50
        width := PLAYER_WIDTH
        height := PLAYER_HEIGHT
        velocityY := 0
        isJumping := false
        isDucking := false
        groundY := CANVAS_HEIGHT - PLAYER_HEIGHT - 50 }
    obstacles := []
    gameState :=
      { score := 0
        lastObstacleSpawn := 0
        groundOffset := 0
        difficultyMultiplier := 1
        lastDifficultyIncrease := 0 } }

/-- The values the three cells are created with (the `useRef` initialisers). -/
def initialGame : Game :=
  { player :=
      { x := 100
        y := CANVAS_HEIGHT - PLAYER_HEIGHT - 50
        width := PLAYER_WIDTH
        height := PLAYER_HEIGHT
        velocityY := 0
        isJumping := false
        isDucking := false
        groundY := CANVAS_HEIGHT - PLAYER_HEIGHT - 50 }
    obstacles := []
    gameState :=
      { score := 0
        lastObstacleSpawn := 0
        groundOffset := 0
        difficultyMultiplier := 1
        lastDifficultyIncrease := 0 } }

/-! ## Sessions: input events interleaved with ticks -/

/-- Something that happens to the canvas: one of the four input listeners
fires, or the frame gate admits a tick. -/
inductive Input where
  | keyDown (isGameRunning isPaused : Bool) (code : String)
  | keyUp (code : String)
  | touchStart (isGameRunning isPaused : Bool) (touchY canvasHeight : ℚ)
  | touchEnd
  | tick (env : TickEnv)
deriving DecidableEq, Repr

/-- The effect of one input on the three cells. -/
def step (g : Game) : Input → Game
  | Input.keyDown isGameRunning isPaused code =>
    { g with player := (handleKeyDown isGameRunning isPaused code g.player).1 }
  | Input.keyUp code => { g with player := handleKeyUp code g.player }
  | Input.touchStart isGameRunning isPaused touchY canvasHeight =>
    { g with player := (handleTouchStart isGameRunning isPaused touchY canvasHeight g.player).1 }
  | Input.touchEnd => { g with player := handleTouchEnd g.player }
  | Input.tick env => (updateGame env g).1

/-- The cells after a finite sequence of inputs. -/
def run (g : Game) (inputs : List Input) : Game :=
  inputs.foldl step g

/-! ## Vocabulary of the claims -/

/-- The obstacle after the assignment `obstacle.x -= speed`. -/
def advance (speed : ℚ) (o : Obstacle) : Obstacle :=
  { o with x := o.x - speed }

/-- The first test of the `filter` callback, on the advanced obstacle:
`obstacle.x + obstacle.width < 0`. -/
def isCulled (speed : ℚ) (o : Obstacle) : Bool :=
  decide ((advance speed o).x + (advance speed o).width < 0)

/-- The obstacle reaches the second test of the `filter` callback and the
test succeeds: it is not culled and `checkCollision(player, obstacle)` holds
for the advanced obstacle. -/
def isHit (speed : ℚ) (player : Player) (o : Obstacle) : Bool :=
  !isCulled speed o && checkCollision player.rect (advance speed o).rect

/-- The arguments of the `onGameOver` calls of an event sequence, in order. -/
def gameOverScores : List Event → List Int
  | [] => []
  | Event.gameOver s :: es => s :: gameOverScores es
  | _ :: es => gameOverScores es

/-- The arguments of the `onScoreUpdate` calls of an event sequence, in order. -/
def scoreUpdates : List Event → List Int
  | [] => []
  | Event.scoreUpdate s :: es => s :: scoreUpdates es
  | _ :: es => scoreUpdates es

/-- The per-tick obstacle update (the `filter` pass) repeated for `n` ticks
at a fixed speed; `player k` is the player object seen by tick number `k`
(counted from 0). Returns the live list and the score. -/
def obstacleTicks (speed : ℚ) (player : Nat → Player) : Nat → List Obstacle → Int →
    List Obstacle × Int
  | 0, obstacles, score => (obstacles, score)
  | n + 1, obstacles, score =>
    let prev := obstacleTicks speed player n obstacles score
    let r := filterObstacles speed (player n) prev.1 prev.2
    (r.obstacles, r.score)

/-! ## Concrete players and sessions used as test points -/

/-- A player in the descending part of a jump, 65 pixels above the ground
line, falling at 10 pixels per tick. -/
def descendingPlayer : Player :=
  { initialGame.player with y := 225, velocityY := 10, isJumping := true }

/-- A tick environment in which neither the difficulty recomputation nor a
spawn is due for a fresh session. -/
def quietEnv : TickEnv := { now := 0, random := 0, dateNow := 0 }

/-- Two ground obstacles five pixels apart below a descending player. -/
def twoUnderfoot : Game :=
  { player := descendingPlayer
    obstacles := [{ newObstacle 1 ObstacleType.high with x := 125 },
                  { newObstacle 2 ObstacleType.high with x := 130 }]
    gameState := initialGame.gameState }

/-- One ground obstacle below a descending player. -/
def oneUnderfoot : Game :=
  { player := descendingPlayer
    obstacles := [{ newObstacle 1 ObstacleType.high with x := 125 }]
    gameState := initialGame.gameState }

/-- An obstacle about to leave the field on the left, followed by a ground
obstacle below a descending player. -/
def passedThenUnderfoot : Game :=
  { player := descendingPlayer
    obstacles := [{ newObstacle 1 ObstacleType.high with x := -28 },
                  { newObstacle 2 ObstacleType.high with x := 125 }]
    gameState := initialGame.gameState }

/-- The player is not both airborne and ducking. -/
def Exclusive (p : Player) : Prop :=
  ¬(p.isJumping = true ∧ p.isDucking = true)

/-- A player crouching on the ground for the whole run. -/
def crouching : Nat → Player :=
  fun _ => duck initialGame.player

/-! ## The frame gate over a stream of signals -/

/-- The frame gate driven by a stream of refresh signals while running:
`gameLoop` is called once per timestamp, in order. Returns the clock cells at
the end and, for each signal, the arguments of the `onUpdate` call when it
was made. -/
def gameLoopStream (r : LoopRefs) : List ℚ → LoopRefs × List (Option (ℚ × Int))
  | [] => (r, [])
  | currentTime :: later =>
    let res := gameLoop true currentTime r
    let rest := gameLoopStream res.refs later
    (rest.1, res.update :: rest.2)

/-- The timestamps `start + gap, start + 2 gap, ...`: `n` refresh signals
spaced `gap` milliseconds apart. -/
def spacedStream (start gap : ℚ) : Nat → List ℚ
  | 0 => []
  | n + 1 => (start + gap) :: spacedStream (start + gap) gap n

/-- The clock cells of a loop started at time 0. -/
def freshRefs : LoopRefs :=
  { lastTime := 0, fps := 0, frameCount := 0, lastFpsTime := 0 }

/-- The difficulty multiplier stored in a session lies between 1 and the
value `getDifficultyMultiplier` gives for the current score. -/
def MultiplierBounded (g : Game) : Prop :=
  1 ≤ g.gameState.difficultyMultiplier ∧
  g.gameState.difficultyMultiplier ≤ getDifficultyMultiplier g.gameState.score

/-! ## `App.jsx`: the session state machine -/

/-- The four values of the `gameState` string of `App`. -/
inductive GameStatus where
  | menu
  | playing
  | paused
  | gameOver
deriving DecidableEq, Repr

/-- The React state of `App` that its event handlers write: `gameState`,
`score`, `showLeaderboard`, `showControls` and `restartTrigger`. The best
score, kept by two effects through `localStorage`, is left out. -/
structure AppState where
  gameState : GameStatus
  score : Int
  showLeaderboard : Bool
  showControls : Bool
  restartTrigger : Int
deriving DecidableEq, Repr

namespace App

/-- The derived flag `isGameRunning` of `App`. -/
def isGameRunning (s : AppState) : Bool :=
  decide (s.gameState = GameStatus.playing) || decide (s.gameState = GameStatus.paused)

/-- The derived flag `isPaused` of `App`. -/
def isPaused (s : AppState) : Bool :=
  decide (s.gameState = GameStatus.paused)

/-- The handler `handleGameStart`. -/
def handleGameStart (s : AppState) : AppState :=
  { s with gameState := GameStatus.playing, score := 0, restartTrigger := s.restartTrigger + 1 }

/-- The handler `handleGameOver(finalScore)`. -/
def handleGameOver (finalScore : Int) (s : AppState) : AppState :=
  { s with gameState := GameStatus.gameOver, score := finalScore }

/-- The handler `handleScoreUpdate(newScore)`. -/
def handleScoreUpdate (newScore : Int) (s : AppState) : AppState :=
  { s with score := newScore }

/-- The handler `handlePause`. -/
def handlePause (s : AppState) : AppState :=
  { s with gameState := GameStatus.paused }

/-- The handler `handleResume`. -/
def handleResume (s : AppState) : AppState :=
  { s with gameState := GameStatus.playing }

/-- The handler `handleRestart`. -/
def handleRestart (s : AppState) : AppState :=
  { s with gameState := GameStatus.playing, score := 0, restartTrigger := s.restartTrigger + 1 }

/-- The handler `handleMenuReturn`. -/
def handleMenuReturn (s : AppState) : AppState :=
  { s with gameState := GameStatus.menu, score := 0 }

/-- The keyboard shortcut listener `handleKeyDown(e)` of `App`, with `e.code`
as `code`. -/
def handleKeyDown (code : String) (s : AppState) : AppState :=
  if code = "KeyP" then
    if s.gameState = GameStatus.playing then handlePause s
    else if s.gameState = GameStatus.paused then handleResume s
    else s
  else if code = "Escape" then
    if s.gameState = GameStatus.playing then handlePause s
    else if s.gameState = GameStatus.paused then handleResume s
    else if s.showLeaderboard then { s with showLeaderboard := false }
    else if s.showControls then { s with showControls := false }
    else s
  else if code = "KeyR" then
    if s.gameState = GameStatus.playing ∨ s.gameState = GameStatus.paused ∨
        s.gameState = GameStatus.gameOver then handleRestart s
    else s
  else if code = "KeyL" then
    if s.gameState = GameStatus.menu ∨ s.gameState = GameStatus.gameOver then
      { s with showLeaderboard := true }
    else s
  else if code = "KeyH" then
    if s.gameState = GameStatus.menu then { s with showControls := true } else s
  else s

/-- A click on the pause/resume button of the HUD. The HUD, and the button in
it, is rendered only while `isGameRunning`; the click calls `onResume` when
`isPaused` and `onPause` otherwise. `none`: the button is not on screen. -/
def hudPauseResumeClick (s : AppState) : Option AppState :=
  if isGameRunning s then
    some (if isPaused s then handleResume s else handlePause s)
  else none

/-- A click on the RESTART button of the HUD, rendered only while
`isGameRunning`. `none`: the button is not on screen. -/
def hudRestartClick (s : AppState) : Option AppState :=
  if isGameRunning s then some (handleRestart s) else none

/-- A click on the PLAY AGAIN button, rendered in the menu/game-over panel
when `gameState` is not 'menu', that is in 'gameOver'. `none`: the button is
not on screen. -/
def playAgainClick (s : AppState) : Option AppState :=
  if (s.gameState = GameStatus.menu ∨ s.gameState = GameStatus.gameOver) ∧
      s.gameState ≠ GameStatus.menu then
    some (handleRestart s)
  else none

end App

/-! ## `GameCanvas.jsx`, `useGameLoop.js`, `HUD.jsx`: effects and display tests -/

/-- The effect of `GameCanvas` keyed on the `onRestart` prop (the restart
trigger of `App`): `if (onRestart) resetGame()`. -/
def restartEffect (onRestart : Int) (g : Game) : Game :=
  if onRestart ≠ 0 then resetGame g else g

/-- The effect of `useGameLoop` keyed on `isRunning`, as far as the clock
cells go: when the loop is armed `lastTimeRef` is set to `performance.now()`
(here `now`); when it is disarmed the pending frame is cancelled and no cell
changes. -/
def loopEffect (isRunning : Bool) (now : ℚ) (r : LoopRefs) : LoopRefs :=
  if isRunning then { r with lastTime := now } else r

/-- The condition under which the HUD renders the milestone banner:
`score > 0 && score % 500 === 0 && isGameRunning`. -/
def milestoneShown (score : Int) (isGameRunning : Bool) : Bool :=
  decide (score > 0) && decide (score % 500 = 0) && isGameRunning

/-! ## The obstacle callback with its two tests in the other order -/

/-- The `filter` callback of `updateGame` rewritten to test the collision
first and the off-screen condition second. The code does not contain this
function; it is the alternative order the claim on test order compares
with. -/
def obstacleCallbackCollisionFirst (speed : ℚ) (player : Player) (score : Int)
    (obstacle : Obstacle) : CallbackResult :=
  let obstacle := { obstacle with x := obstacle.x - speed }
  if checkCollision player.rect obstacle.rect then
    { keep := false
      obstacle := obstacle
      score := score
      events := [Event.sound Sound.collision, Event.gameOver score] }
  else if obstacle.x + obstacle.width < 0 then
    let score := score + SCORE_INCREMENT * 10
    { keep := false
      obstacle := obstacle
      score := score
      events := Event.scoreUpdate score ::
        (if score % 100 = 0 then [Event.sound Sound.score] else []) }
  else
    { keep := true, obstacle := obstacle, score := score, events := [] }

/-- The `filter` pass run with the collision-first callback. -/
def filterObstaclesCollisionFirst (speed : ℚ) (player : Player) :
    List Obstacle → Int → FilterResult
  | [], score => { obstacles := [], score := score, events := [] }
  | obstacle :: rest, score =>
    let r := obstacleCallbackCollisionFirst speed player score obstacle
    let rs := filterObstaclesCollisionFirst speed player rest r.score
    { obstacles := if r.keep then r.obstacle :: rs.obstacles else rs.obstacles
      score := rs.score
      events := r.events ++ rs.events }

/-- The player stands where the game puts it: `x = 100`, width 40. -/
def AtPlayerColumn (p : Player) : Prop :=
  p.x = 100 ∧ p.width = 40

/-! ## More test points -/

/-- A session whose last spawn and last difficulty recomputation happened at
clock time 1000. -/
def sessionAt1000 : Game :=
  { initialGame with
    gameState :=
      { initialGame.gameState with lastObstacleSpawn := 1000, lastDifficultyIncrease := 1000 } }

/-- A session with score 499 and one obstacle about to leave the field. -/
def nearMilestone : Game :=
  { initialGame with
    obstacles := [{ newObstacle 1 ObstacleType.high with x := -28 }]
    gameState := { initialGame.gameState with score := 499 } }

/-- The player after the initial player has jumped. -/
def jumpedPlayer : Player :=
  (jump initialGame.player).1

/-- The vertical position on the jump arc after `n` physics ticks, in closed
form: `290 - 15 n + 0.4 n (n + 1)`. -/
def arcY (n : Nat) : ℚ :=
  290 - 15 * (n : ℚ) + 4 / 10 * (n : ℚ) * ((n : ℚ) + 1)

/-! ## The spawn test in rational terms -/

/-- The test `timeSinceLastSpawn > spawnInterval` of `spawnObstacle`, without
the top element: the multiplier is nonzero and the elapsed time exceeds the
rational quotient. -/
theorem spawnInterval_lt_iff (t m : ℚ) :
    spawnInterval m < ((t : ℚ) : WithTop ℚ) ↔ m ≠ 0 ∧ OBSTACLE_SPAWN_INTERVAL / m < t := by
  unfold spawnInterval
  by_cases hm : m = 0
  · simp [hm]
  · simp [hm, WithTop.coe_lt_coe]

/-- The function `spawnObstacle` with its test in rational terms. -/
theorem spawnObstacle_eq (currentTime random : ℚ) (dateNow : Int) (g : Game) :
    spawnObstacle currentTime random dateNow g =
      if g.gameState.difficultyMultiplier ≠ 0 ∧
          OBSTACLE_SPAWN_INTERVAL / g.gameState.difficultyMultiplier <
            currentTime - g.gameState.lastObstacleSpawn then
        { g with
          obstacles := g.obstacles ++
            [newObstacle dateNow (if random > 5 / 10 then ObstacleType.high else ObstacleType.low)]
          gameState := { g.gameState with lastObstacleSpawn := currentTime } }
      else g := by
  unfold spawnObstacle
  simp only [gt_iff_lt, spawnInterval_lt_iff]

/-! ## Lemmas on the obstacle pass -/

theorem gameOverScores_append (es fs : List Event) :
    gameOverScores (es ++ fs) = gameOverScores es ++ gameOverScores fs := by
  induction es with
  | nil => rfl
  | cons e es ih => cases e <;> simp [gameOverScores, ih]

theorem scoreUpdates_append (es fs : List Event) :
    scoreUpdates (es ++ fs) = scoreUpdates es ++ scoreUpdates fs := by
  induction es with
  | nil => rfl
  | cons e es ih => cases e <;> simp [scoreUpdates, ih]

theorem mem_gameOverScores {es : List Event} {s : Int} :
    s ∈ gameOverScores es ↔ Event.gameOver s ∈ es := by
  induction es with
  | nil => simp [gameOverScores]
  | cons e es ih => cases e <;> simp [gameOverScores, ih]

theorem obstacleCallback_culled (speed : ℚ) (player : Player) (score : Int) (o : Obstacle)
    (h : isCulled speed o = true) :
    obstacleCallback speed player score o =
      { keep := false
        obstacle := advance speed o
        score := score + SCORE_INCREMENT * 10
        events := Event.scoreUpdate (score + SCORE_INCREMENT * 10) ::
          (if (score + SCORE_INCREMENT * 10) % 100 = 0 then [Event.sound Sound.score] else []) } := by
  simp only [isCulled, advance, decide_eq_true_eq] at h
  simp [obstacleCallback, advance, h]

theorem obstacleCallback_hit (speed : ℚ) (player : Player) (score : Int) (o : Obstacle)
    (h : isHit speed player o = true) :
    obstacleCallback speed player score o =
      { keep := false
        obstacle := advance speed o
        score := score
        events := [Event.sound Sound.collision, Event.gameOver score] } := by
  simp only [isHit, isCulled, advance, Bool.and_eq_true, Bool.not_eq_true', decide_eq_false_iff_not]
    at h
  simp only [obstacleCallback, advance]
  rw [if_neg h.1, if_pos h.2]

theorem obstacleCallback_kept (speed : ℚ) (player : Player) (score : Int) (o : Obstacle)
    (hc : isCulled speed o = false) (hh : isHit speed player o = false) :
    obstacleCallback speed player score o =
      { keep := true, obstacle := advance speed o, score := score, events := [] } := by
  simp only [isHit, hc, Bool.not_false, Bool.true_and] at hh
  simp only [isCulled, advance, decide_eq_false_iff_not] at hc
  simp only [obstacleCallback, advance]
  rw [if_neg hc]
  simp only [advance] at hh
  simp [hh]

theorem isHit_of_culled {speed : ℚ} {player : Player} {o : Obstacle}
    (h : isCulled speed o = true) : isHit speed player o = false := by
  simp [isHit, h]

/-- The three cases of the callback, by the two tests. -/
theorem obstacleCallback_cases (speed : ℚ) (player : Player) (o : Obstacle) :
    (isCulled speed o = true ∧ isHit speed player o = false) ∨
    (isCulled speed o = false ∧ isHit speed player o = true) ∨
    (isCulled speed o = false ∧ isHit speed player o = false) := by
  cases hc : isCulled speed o <;> cases hh : isHit speed player o <;> simp_all [isHit]

theorem filterObstacles_score (speed : ℚ) (player : Player) (obs : List Obstacle) (score : Int) :
    (filterObstacles speed player obs score).score =
      score + SCORE_INCREMENT * 10 * ((obs.filter (isCulled speed)).length : Int) := by
  induction obs generalizing score with
  | nil => simp [filterObstacles]
  | cons o rest ih =>
    rcases obstacleCallback_cases speed player o with ⟨hc, _⟩ | ⟨hc, hh⟩ | ⟨hc, hh⟩
    · simp only [filterObstacles, obstacleCallback_culled speed player score o hc, ih,
        List.filter_cons, hc, if_true, List.length_cons]
      push_cast
      ring
    · simp [filterObstacles, obstacleCallback_hit speed player score o hh, ih, List.filter_cons, hc]
    · simp [filterObstacles, obstacleCallback_kept speed player score o hc hh, ih,
        List.filter_cons, hc]

theorem filterObstacles_obstacles (speed : ℚ) (player : Player) (obs : List Obstacle)
    (score : Int) :
    (filterObstacles speed player obs score).obstacles =
      (obs.filter (fun o => !isCulled speed o && !isHit speed player o)).map (advance speed) := by
  induction obs generalizing score with
  | nil => simp [filterObstacles]
  | cons o rest ih =>
    rcases obstacleCallback_cases speed player o with ⟨hc, hh⟩ | ⟨hc, hh⟩ | ⟨hc, hh⟩
    · simp [filterObstacles, obstacleCallback_culled speed player score o hc, ih,
        List.filter_cons, hc]
    · simp [filterObstacles, obstacleCallback_hit speed player score o hh, ih,
        List.filter_cons, hh]
    · simp [filterObstacles, obstacleCallback_kept speed player score o hc hh, ih,
        List.filter_cons, hc, hh]

theorem filterObstacles_append (speed : ℚ) (player : Player) (xs ys : List Obstacle)
    (score : Int) :
    filterObstacles speed player (xs ++ ys) score =
      { obstacles := (filterObstacles speed player xs score).obstacles ++
          (filterObstacles speed player ys (filterObstacles speed player xs score).score).obstacles
        score := (filterObstacles speed player ys (filterObstacles speed player xs score).score).score
        events := (filterObstacles speed player xs score).events ++
          (filterObstacles speed player ys (filterObstacles speed player xs score).score).events } := by
  induction xs generalizing score with
  | nil => simp [filterObstacles]
  | cons o rest ih =>
    have e := ih (obstacleCallback speed player score o).score
    rw [List.cons_append]
    simp only [filterObstacles]
    rw [e]
    split <;> simp

theorem filterObstacles_gameOver_none (speed : ℚ) (player : Player) (obs : List Obstacle)
    (score : Int) (h : ∀ o ∈ obs, isHit speed player o = false) :
    gameOverScores (filterObstacles speed player obs score).events = [] := by
  induction obs generalizing score with
  | nil => simp [filterObstacles, gameOverScores]
  | cons o rest ih =>
    have ho := h o (List.mem_cons_self _ _)
    have hrest : ∀ o ∈ rest, isHit speed player o = false :=
      fun q hq => h q (List.mem_cons_of_mem _ hq)
    rcases obstacleCallback_cases speed player o with ⟨hc, _⟩ | ⟨_, hh⟩ | ⟨hc, hh⟩
    · simp only [filterObstacles, obstacleCallback_culled speed player score o hc,
        gameOverScores_append, ih _ hrest, List.append_nil]
      split <;> simp [gameOverScores]
    · rw [ho] at hh
      cases hh
    · simp [filterObstacles, obstacleCallback_kept speed player score o hc hh, ih _ hrest]

theorem filterObstacles_gameOver_le (speed : ℚ) (player : Player) (obs : List Obstacle)
    (score : Int) :
    score ≤ (filterObstacles speed player obs score).score ∧
    ∀ s ∈ gameOverScores (filterObstacles speed player obs score).events,
      s ≤ (filterObstacles speed player obs score).score := by
  induction obs generalizing score with
  | nil => simp [filterObstacles, gameOverScores]
  | cons o rest ih =>
    rcases obstacleCallback_cases speed player o with ⟨hc, _⟩ | ⟨_, hh⟩ | ⟨hc, hh⟩
    · have h1 := ih (score + SCORE_INCREMENT * 10)
      simp only [filterObstacles, obstacleCallback_culled speed player score o hc,
        gameOverScores_append]
      refine ⟨by have := h1.1; simp only [SCORE_INCREMENT] at this ⊢; omega, ?_⟩
      intro s hs
      apply h1.2
      have hnone : gameOverScores (Event.scoreUpdate (score + SCORE_INCREMENT * 10) ::
          (if (score + SCORE_INCREMENT * 10) % 100 = 0 then [Event.sound Sound.score] else []))
          = [] := by
        split <;> simp [gameOverScores]
      rw [hnone, List.nil_append] at hs
      exact hs
    · have h1 := ih score
      simp only [filterObstacles, obstacleCallback_hit speed player score o hh,
        gameOverScores_append]
      refine ⟨h1.1, ?_⟩
      intro s hs
      simp only [gameOverScores, List.cons_append, List.nil_append, List.mem_cons] at hs
      rcases hs with rfl | hs
      · exact h1.1
      · exact h1.2 s hs
    · have h1 := ih score
      simpa [filterObstacles, obstacleCallback_kept speed player score o hc hh,
        gameOverScores] using h1

/-! ## Lemmas on the tick -/

theorem updateDifficulty_score (t : ℚ) (gs : GameState) :
    (updateDifficulty t gs).score = gs.score := by
  unfold updateDifficulty
  split <;> rfl

theorem updateGround_score (gs : GameState) : (updateGround gs).score = gs.score := by
  unfold updateGround
  simp only
  split <;> rfl

theorem spawnObstacle_score (t rnd : ℚ) (d : Int) (g : Game) :
    (spawnObstacle t rnd d g).gameState.score = g.gameState.score := by
  unfold spawnObstacle
  simp only
  split <;> rfl

theorem beforeObstacles_score (env : TickEnv) (g : Game) :
    (beforeObstacles env g).gameState.score = g.gameState.score := by
  simp [beforeObstacles, spawnObstacle_score, updateDifficulty_score]

theorem updateGame_events (env : TickEnv) (g : Game) :
    (updateGame env g).2 =
      (filterObstacles (obstacleSpeed (beforeObstacles env g)) (beforeObstacles env g).player
        (beforeObstacles env g).obstacles g.gameState.score).events ++
      [Event.scoreUpdate (updateGame env g).1.gameState.score] := by
  simp [updateGame, beforeObstacles_score]

theorem updateGame_score_filter (env : TickEnv) (g : Game) :
    (updateGame env g).1.gameState.score =
      (filterObstacles (obstacleSpeed (beforeObstacles env g)) (beforeObstacles env g).player
        (beforeObstacles env g).obstacles g.gameState.score).score + SCORE_INCREMENT := by
  simp [updateGame, beforeObstacles_score, updateGround_score]

theorem updateGame_score_le (env : TickEnv) (g : Game) :
    g.gameState.score ≤ (updateGame env g).1.gameState.score := by
  rw [updateGame_score_filter, filterObstacles_score]
  simp only [SCORE_INCREMENT]
  omega

theorem step_score_le (g : Game) (i : Input) :
    g.gameState.score ≤ (step g i).gameState.score := by
  cases i with
  | tick env => exact updateGame_score_le env g
  | _ => simp [step]

theorem run_score_le (g : Game) (inputs : List Input) :
    g.gameState.score ≤ (run g inputs).gameState.score := by
  induction inputs generalizing g with
  | nil => simp [run]
  | cons i rest ih =>
    have h1 := step_score_le g i
    have h2 := ih (step g i)
    simp only [run, List.foldl_cons] at h2 ⊢
    omega

/-! ## C1: game over on collision -/

/-- C1, as stated, fails: with two live obstacles overlapping the player
after advancement, one tick of `updateGame` calls `onGameOver` twice. -/
theorem updateGame_gameOver_twice :
    (∃ o ∈ (beforeObstacles quietEnv twoUnderfoot).obstacles,
      checkCollision (beforeObstacles quietEnv twoUnderfoot).player.rect
        (advance (obstacleSpeed (beforeObstacles quietEnv twoUnderfoot)) o).rect = true) ∧
    gameOverScores (updateGame quietEnv twoUnderfoot).2 = [0, 0] := by
  constructor
  · refine ⟨{ newObstacle 1 ObstacleType.high with x := 125 }, ?_, ?_⟩ <;>
    norm_num [twoUnderfoot, quietEnv, descendingPlayer, initialGame, beforeObstacles,
      spawnObstacle_eq, updatePlayer, updateDifficulty, obstacleSpeed, newObstacle, advance,
      checkCollision, Player.rect, Obstacle.rect, OBSTACLE_SPEED, OBSTACLE_SPAWN_INTERVAL,
      DIFFICULTY_INCREASE_INTERVAL, CANVAS_HEIGHT, CANVAS_WIDTH, PLAYER_HEIGHT, PLAYER_WIDTH,
      OBSTACLE_HEIGHT, OBSTACLE_WIDTH, GRAVITY]
  · norm_num [updateGame, twoUnderfoot, quietEnv, descendingPlayer, initialGame, beforeObstacles,
      spawnObstacle_eq, updatePlayer, updateDifficulty, filterObstacles, obstacleCallback,
      obstacleSpeed, updateGround, newObstacle, checkCollision, Player.rect, Obstacle.rect,
      gameOverScores, OBSTACLE_SPEED, OBSTACLE_SPAWN_INTERVAL, DIFFICULTY_INCREASE_INTERVAL,
      CANVAS_HEIGHT, CANVAS_WIDTH, PLAYER_HEIGHT, PLAYER_WIDTH, OBSTACLE_HEIGHT, OBSTACLE_WIDTH,
      SCORE_INCREMENT, GROUND_SPEED, GRAVITY]

/-- C1, amended: in a tick of `updateGame` in which exactly one live obstacle
`ob` is, after advancement, not culled and overlapping the player hitbox,
`onGameOver` is called exactly once, and its argument is the score at that
moment: the score before the tick plus `10 * SCORE_INCREMENT` for every
obstacle that precedes `ob` in the list and is culled in this tick. -/
theorem updateGame_gameOver_exactly_once (env : TickEnv) (g : Game)
    (pre post : List Obstacle) (ob : Obstacle)
    (hsplit : (beforeObstacles env g).obstacles = pre ++ ob :: post)
    (hob : isHit (obstacleSpeed (beforeObstacles env g)) (beforeObstacles env g).player ob = true)
    (hpre : ∀ o ∈ pre,
      isHit (obstacleSpeed (beforeObstacles env g)) (beforeObstacles env g).player o = false)
    (hpost : ∀ o ∈ post,
      isHit (obstacleSpeed (beforeObstacles env g)) (beforeObstacles env g).player o = false) :
    gameOverScores (updateGame env g).2 =
      [g.gameState.score + SCORE_INCREMENT * 10 *
        ((pre.filter (isCulled (obstacleSpeed (beforeObstacles env g)))).length : Int)] := by
  rw [updateGame_events, hsplit, filterObstacles_append, gameOverScores_append,
    gameOverScores_append]
  simp only [filterObstacles, obstacleCallback_hit _ _ _ _ hob, gameOverScores_append,
    filterObstacles_gameOver_none _ _ _ _ hpre, filterObstacles_gameOver_none _ _ _ _ hpost,
    filterObstacles_score]
  simp [gameOverScores]

/-- Witness for C1: an obstacle leaves the field (bonus 10) and the next one
is hit in the same tick; the single game-over call carries 10. -/
theorem updateGame_gameOver_exactly_once_witness :
    gameOverScores (updateGame quietEnv passedThenUnderfoot).2 =
      [passedThenUnderfoot.gameState.score + SCORE_INCREMENT * 10 *
        (([{ newObstacle 1 ObstacleType.high with x := -28 }].filter
          (isCulled (obstacleSpeed (beforeObstacles quietEnv passedThenUnderfoot)))).length : Int)] ∧
    passedThenUnderfoot.gameState.score + SCORE_INCREMENT * 10 *
        (([{ newObstacle 1 ObstacleType.high with x := -28 }].filter
          (isCulled (obstacleSpeed (beforeObstacles quietEnv passedThenUnderfoot)))).length : Int)
      = 10 := by
  refine ⟨updateGame_gameOver_exactly_once quietEnv passedThenUnderfoot
    [{ newObstacle 1 ObstacleType.high with x := -28 }] []
    { newObstacle 2 ObstacleType.high with x := 125 } ?_ ?_ ?_ ?_, ?_⟩
  · norm_num [passedThenUnderfoot, quietEnv, initialGame, beforeObstacles, spawnObstacle_eq,
      updateDifficulty, OBSTACLE_SPAWN_INTERVAL, DIFFICULTY_INCREASE_INTERVAL]
  · norm_num [passedThenUnderfoot, quietEnv, descendingPlayer, initialGame, beforeObstacles,
      spawnObstacle_eq, updatePlayer, updateDifficulty, obstacleSpeed, newObstacle, advance, isHit,
      isCulled, checkCollision, Player.rect, Obstacle.rect, OBSTACLE_SPEED,
      OBSTACLE_SPAWN_INTERVAL, DIFFICULTY_INCREASE_INTERVAL, CANVAS_HEIGHT, CANVAS_WIDTH,
      PLAYER_HEIGHT, PLAYER_WIDTH, OBSTACLE_HEIGHT, OBSTACLE_WIDTH, GRAVITY]
  · norm_num [passedThenUnderfoot, quietEnv, descendingPlayer, initialGame, beforeObstacles,
      spawnObstacle_eq, updatePlayer, updateDifficulty, obstacleSpeed, newObstacle, advance, isHit,
      isCulled, checkCollision, Player.rect, Obstacle.rect, OBSTACLE_SPEED,
      OBSTACLE_SPAWN_INTERVAL, DIFFICULTY_INCREASE_INTERVAL, CANVAS_HEIGHT, CANVAS_WIDTH,
      PLAYER_HEIGHT, PLAYER_WIDTH, OBSTACLE_HEIGHT, OBSTACLE_WIDTH, GRAVITY]
  · intro o ho
    cases ho
  · norm_num [passedThenUnderfoot, quietEnv, initialGame, beforeObstacles, spawnObstacle_eq,
      updateDifficulty, obstacleSpeed, newObstacle, advance, isCulled, OBSTACLE_SPEED,
      OBSTACLE_SPAWN_INTERVAL, DIFFICULTY_INCREASE_INTERVAL, OBSTACLE_WIDTH, SCORE_INCREMENT,
      List.filter]

/-! ## C2: what follows the game-over call -/

/-- C2, as stated, fails: in a tick with a collision the call
`onGameOver(0)` is followed by `onScoreUpdate(1)`, so the game-over call is
not the last score-carrying event and the host last receives 1, not 0. -/
theorem updateGame_scoreUpdate_after_gameOver :
    (updateGame quietEnv oneUnderfoot).2 =
      [Event.sound Sound.collision, Event.gameOver 0, Event.scoreUpdate 1] := by
  norm_num [updateGame, oneUnderfoot, quietEnv, descendingPlayer, initialGame, beforeObstacles,
    spawnObstacle_eq, updatePlayer, updateDifficulty, filterObstacles, obstacleCallback,
    obstacleSpeed, updateGround, newObstacle, checkCollision, Player.rect, Obstacle.rect,
    OBSTACLE_SPEED, OBSTACLE_SPAWN_INTERVAL, DIFFICULTY_INCREASE_INTERVAL,
    CANVAS_HEIGHT, CANVAS_WIDTH, PLAYER_HEIGHT, PLAYER_WIDTH, OBSTACLE_HEIGHT, OBSTACLE_WIDTH,
    SCORE_INCREMENT, GROUND_SPEED, GRAVITY]

/-- C2, amended: every tick of `updateGame`, with or without a collision,
ends with the call `onScoreUpdate(score)` for the score after the passive
increment, and every `onGameOver` argument of the tick is strictly smaller
than that last reported score. -/
theorem updateGame_last_event_scoreUpdate (env : TickEnv) (g : Game) :
    (updateGame env g).2.getLast? =
      some (Event.scoreUpdate (updateGame env g).1.gameState.score) ∧
    ∀ s, Event.gameOver s ∈ (updateGame env g).2 → s < (updateGame env g).1.gameState.score := by
  constructor
  · rw [updateGame_events]
    simp
  · intro s hs
    rw [updateGame_events] at hs
    simp only [List.mem_append, List.mem_singleton, reduceCtorEq, or_false] at hs
    have h := (filterObstacles_gameOver_le (obstacleSpeed (beforeObstacles env g))
      (beforeObstacles env g).player (beforeObstacles env g).obstacles g.gameState.score).2 s
      (mem_gameOverScores.mpr hs)
    rw [updateGame_score_filter]
    simp only [SCORE_INCREMENT]
    omega

/-- Witness for C2: in the collision tick of `oneUnderfoot` the last event is
the score update and the game-over argument 0 is below the final score. -/
theorem updateGame_last_event_scoreUpdate_witness :
    (updateGame quietEnv oneUnderfoot).2.getLast? =
      some (Event.scoreUpdate (updateGame quietEnv oneUnderfoot).1.gameState.score) ∧
    (0 : Int) < (updateGame quietEnv oneUnderfoot).1.gameState.score := by
  refine ⟨(updateGame_last_event_scoreUpdate quietEnv oneUnderfoot).1,
    (updateGame_last_event_scoreUpdate quietEnv oneUnderfoot).2 0 ?_⟩
  norm_num [updateGame, oneUnderfoot, quietEnv, descendingPlayer, initialGame, beforeObstacles,
    spawnObstacle_eq, updatePlayer, updateDifficulty, filterObstacles, obstacleCallback,
    obstacleSpeed, updateGround, newObstacle, checkCollision, Player.rect, Obstacle.rect,
    OBSTACLE_SPEED, OBSTACLE_SPAWN_INTERVAL, DIFFICULTY_INCREASE_INTERVAL,
    CANVAS_HEIGHT, CANVAS_WIDTH, PLAYER_HEIGHT, PLAYER_WIDTH, OBSTACLE_HEIGHT, OBSTACLE_WIDTH,
    SCORE_INCREMENT, GROUND_SPEED, GRAVITY]

/-! ## C3: score accounting -/

/-- C3: the score after a tick of `updateGame` is the score before plus
`SCORE_INCREMENT` plus `10 * SCORE_INCREMENT` for each obstacle culled in the
tick; it never decreases over a tick, and from the initial state it is
non-negative after any sequence of inputs and ticks. -/
theorem updateGame_score_accounting (env : TickEnv) (g : Game) :
    (updateGame env g).1.gameState.score =
      g.gameState.score + SCORE_INCREMENT + SCORE_INCREMENT * 10 *
        (((beforeObstacles env g).obstacles.filter
          (isCulled (obstacleSpeed (beforeObstacles env g)))).length : Int) ∧
    SCORE_INCREMENT = 1 ∧
    g.gameState.score ≤ (updateGame env g).1.gameState.score ∧
    ∀ inputs : List Input, 0 ≤ (run initialGame inputs).gameState.score := by
  refine ⟨?_, rfl, updateGame_score_le env g, fun inputs => ?_⟩
  · rw [updateGame_score_filter, filterObstacles_score]
    ring
  · have h := run_score_le initialGame inputs
    simpa [initialGame] using h

/-! ## C4: airborne and ducking exclude each other -/

theorem beforeObstacles_player (env : TickEnv) (g : Game) :
    (beforeObstacles env g).player = updatePlayer g.player := by
  unfold beforeObstacles spawnObstacle
  simp only
  split <;> rfl

theorem updateGame_player (env : TickEnv) (g : Game) :
    (updateGame env g).1.player = updatePlayer g.player := by
  simp [updateGame, beforeObstacles_player]

theorem updatePlayer_exclusive (p : Player) (h : Exclusive p) : Exclusive (updatePlayer p) := by
  unfold Exclusive at h ⊢
  unfold updatePlayer
  simp only
  by_cases hj : p.isJumping = true
  · rw [if_pos hj]
    have hd : p.isDucking = false := by
      cases hd : p.isDucking
      · rfl
      · exact absurd ⟨hj, hd⟩ h
    split <;> simp [hd]
  · rw [if_neg hj]
    exact h

theorem handleKeyDown_exclusive (r q : Bool) (code : String) (p : Player) (h : Exclusive p) :
    Exclusive (handleKeyDown r q code p).1 := by
  unfold Exclusive at h ⊢
  unfold handleKeyDown
  split_ifs <;> simp_all [jump, duck]

theorem handleKeyUp_exclusive (code : String) (p : Player) (h : Exclusive p) :
    Exclusive (handleKeyUp code p) := by
  unfold Exclusive at h ⊢
  unfold handleKeyUp
  split_ifs <;> simp_all [standUp]

theorem handleTouchStart_exclusive (r q : Bool) (ty ch : ℚ) (p : Player) (h : Exclusive p) :
    Exclusive (handleTouchStart r q ty ch p).1 := by
  unfold Exclusive at h ⊢
  unfold handleTouchStart
  split_ifs <;> simp_all [jump, duck]

theorem handleTouchEnd_exclusive (p : Player) (h : Exclusive p) :
    Exclusive (handleTouchEnd p) := by
  unfold Exclusive at h ⊢
  unfold handleTouchEnd
  split_ifs <;> simp_all [standUp]

theorem step_exclusive (g : Game) (i : Input) (h : Exclusive g.player) :
    Exclusive (step g i).player := by
  cases i with
  | keyDown r q code => exact handleKeyDown_exclusive r q code g.player h
  | keyUp code => exact handleKeyUp_exclusive code g.player h
  | touchStart r q ty ch => exact handleTouchStart_exclusive r q ty ch g.player h
  | touchEnd => exact handleTouchEnd_exclusive g.player h
  | tick env =>
    show Exclusive (updateGame env g).1.player
    rw [updateGame_player]
    exact updatePlayer_exclusive g.player h

theorem run_exclusive (g : Game) (inputs : List Input) (h : Exclusive g.player) :
    Exclusive (run g inputs).player := by
  induction inputs generalizing g with
  | nil => simpa [run] using h
  | cons i rest ih =>
    have h2 := ih (step g i) (step_exclusive g i h)
    simpa [run] using h2

/-- C4: starting from the initial player, after any finite sequence of key
downs, key ups, touch starts, touch ends (whatever the running and paused
flags at each) and ticks, the player is never both `isJumping` and
`isDucking`. -/
theorem run_never_airborne_and_ducking (inputs : List Input) :
    ¬((run initialGame inputs).player.isJumping = true ∧
      (run initialGame inputs).player.isDucking = true) := by
  have h0 : Exclusive initialGame.player := by
    simp [Exclusive, initialGame]
  exact run_exclusive initialGame inputs h0

/-! ## C5: culling and the pass-through bonus -/

theorem filterObstacles_scoreUpdates_length (speed : ℚ) (player : Player)
    (obs : List Obstacle) (score : Int) :
    (scoreUpdates (filterObstacles speed player obs score).events).length =
      (obs.filter (isCulled speed)).length := by
  induction obs generalizing score with
  | nil => simp [filterObstacles, scoreUpdates]
  | cons o rest ih =>
    rcases obstacleCallback_cases speed player o with ⟨hc, _⟩ | ⟨hc, hh⟩ | ⟨hc, hh⟩
    · have hone : scoreUpdates (Event.scoreUpdate (score + SCORE_INCREMENT * 10) ::
          (if (score + SCORE_INCREMENT * 10) % 100 = 0 then [Event.sound Sound.score] else []))
          = [score + SCORE_INCREMENT * 10] := by
        split <;> simp [scoreUpdates]
      simp only [filterObstacles, obstacleCallback_culled speed player score o hc,
        scoreUpdates_append, hone, List.length_append, ih, List.filter_cons, hc, if_true,
        List.length_cons, List.length_nil]
      omega
    · simp [filterObstacles, obstacleCallback_hit speed player score o hh, scoreUpdates_append,
        scoreUpdates, ih, List.filter_cons, hc]
    · simp [filterObstacles, obstacleCallback_kept speed player score o hc hh, scoreUpdates,
        ih, List.filter_cons, hc]

/-- C5: in every tick of `updateGame` the live list afterwards consists of
the advanced obstacles that were neither culled nor hit, so every obstacle
whose trailing edge after advancement is below 0 is removed and every
survivor has `x + width >= 0`; the score gained from culling is exactly
`10 * SCORE_INCREMENT` times the number of culled obstacles, reported by
exactly that many `onScoreUpdate` calls (besides the one closing the tick). -/
theorem updateGame_culls_and_credits_once (env : TickEnv) (g : Game) :
    (updateGame env g).1.obstacles =
      ((beforeObstacles env g).obstacles.filter (fun o =>
        !isCulled (obstacleSpeed (beforeObstacles env g)) o &&
        !isHit (obstacleSpeed (beforeObstacles env g)) (beforeObstacles env g).player o)).map
        (advance (obstacleSpeed (beforeObstacles env g))) ∧
    (∀ o ∈ (updateGame env g).1.obstacles, 0 ≤ o.x + o.width) ∧
    (updateGame env g).1.gameState.score - SCORE_INCREMENT - g.gameState.score =
      SCORE_INCREMENT * 10 *
        (((beforeObstacles env g).obstacles.filter
          (isCulled (obstacleSpeed (beforeObstacles env g)))).length : Int) ∧
    (scoreUpdates (updateGame env g).2).length =
      ((beforeObstacles env g).obstacles.filter
        (isCulled (obstacleSpeed (beforeObstacles env g)))).length + 1 := by
  have hobs : (updateGame env g).1.obstacles =
      ((beforeObstacles env g).obstacles.filter (fun o =>
        !isCulled (obstacleSpeed (beforeObstacles env g)) o &&
        !isHit (obstacleSpeed (beforeObstacles env g)) (beforeObstacles env g).player o)).map
        (advance (obstacleSpeed (beforeObstacles env g))) := by
    simp only [updateGame]
    exact filterObstacles_obstacles _ _ _ _
  refine ⟨hobs, ?_, ?_, ?_⟩
  · intro o ho
    rw [hobs] at ho
    simp only [List.mem_map, List.mem_filter, Bool.and_eq_true, Bool.not_eq_true'] at ho
    obtain ⟨q, ⟨_, hq, _⟩, rfl⟩ := ho
    simp only [isCulled, decide_eq_false_iff_not, not_lt] at hq
    exact hq
  · rw [updateGame_score_filter, filterObstacles_score]
    ring
  · rw [updateGame_events, scoreUpdates_append, List.length_append,
      filterObstacles_scoreUpdates_length]
    simp [scoreUpdates]

/-! ## C6: how long an obstacle takes to leave the field -/

theorem advance_advance (a b : ℚ) (o : Obstacle) :
    advance a (advance b o) = advance (b + a) o := by
  simp only [advance]
  congr 1
  ring

theorem filterObstacles_single_kept (speed : ℚ) (player : Player) (o : Obstacle) (score : Int)
    (hc : isCulled speed o = false) (hh : isHit speed player o = false) :
    filterObstacles speed player [o] score =
      { obstacles := [advance speed o], score := score, events := [] } := by
  simp [filterObstacles, obstacleCallback_kept speed player score o hc hh]

theorem filterObstacles_single_culled (speed : ℚ) (player : Player) (o : Obstacle) (score : Int)
    (hc : isCulled speed o = true) :
    (filterObstacles speed player [o] score).obstacles = [] ∧
    (filterObstacles speed player [o] score).score = score + SCORE_INCREMENT * 10 := by
  simp [filterObstacles, obstacleCallback_culled speed player score o hc]

theorem obstacleTicks_succ (speed : ℚ) (player : Nat → Player) (n : Nat)
    (obs : List Obstacle) (score : Int) :
    obstacleTicks speed player (n + 1) obs score =
      ((filterObstacles speed (player n) (obstacleTicks speed player n obs score).1
          (obstacleTicks speed player n obs score).2).obstacles,
       (filterObstacles speed (player n) (obstacleTicks speed player n obs score).1
          (obstacleTicks speed player n obs score).2).score) := rfl

theorem newObstacle_low_y (d : Int) : (newObstacle d ObstacleType.low).y = 240 := by
  simp only [newObstacle, reduceCtorEq, if_false, CANVAS_HEIGHT, OBSTACLE_HEIGHT]
  norm_num

theorem newObstacle_high_y (d : Int) : (newObstacle d ObstacleType.high).y = 290 := by
  simp only [newObstacle, if_true, CANVAS_HEIGHT, OBSTACLE_HEIGHT]
  norm_num

/-- An obstacle that starts at `x = 800` with width 30 and is never hit is
still live, with no bonus credited, after each of the first 166 ticks at
speed 5. -/
theorem obstacleTicks_retained (player : Nat → Player) (o : Obstacle) (score : Int)
    (hx : o.x = 800) (hw : o.width = 30) (n : Nat) (hn : n ≤ 166)
    (hmiss : ∀ k, k < n →
      checkCollision (player k).rect (advance (5 * ((k : ℚ) + 1)) o).rect = false) :
    obstacleTicks 5 player n [o] score = ([advance (5 * (n : ℚ)) o], score) := by
  induction n with
  | zero =>
    simp only [obstacleTicks, Nat.cast_zero, mul_zero]
    have : advance 0 o = o := by simp [advance]
    rw [this]
  | succ m ih =>
    have hprev := ih (by omega) (fun k hk => hmiss k (by omega))
    have hm : (m : ℚ) ≤ 165 := by
      have : m ≤ 165 := by omega
      exact_mod_cast this
    have hadv : advance 5 (advance (5 * (m : ℚ)) o) = advance (5 * ((m : ℚ) + 1)) o := by
      rw [advance_advance]
      congr 1
      ring
    have hc : isCulled 5 (advance (5 * (m : ℚ)) o) = false := by
      simp only [isCulled, hadv, decide_eq_false_iff_not, not_lt]
      simp only [advance, hx, hw]
      linarith
    have hh : isHit 5 (player m) (advance (5 * (m : ℚ)) o) = false := by
      simp only [isHit, hc, Bool.not_false, Bool.true_and, hadv]
      exact hmiss m (by omega)
    rw [obstacleTicks_succ, hprev]
    simp only [filterObstacles_single_kept 5 (player m) _ score hc hh, hadv]
    push_cast
    rfl

theorem obstacleTicks_nil (speed : ℚ) (player : Nat → Player) (n : Nat) (score : Int) :
    obstacleTicks speed player n [] score = ([], score) := by
  induction n with
  | zero => rfl
  | succ m ih =>
    rw [obstacleTicks_succ, ih]
    rfl

theorem crouching_misses_low (d : Int) (a : ℚ) (k : Nat) :
    checkCollision (crouching k).rect (advance a (newObstacle d ObstacleType.low)).rect = false := by
  have hy := newObstacle_low_y d
  have hh : (newObstacle d ObstacleType.low).height = 60 := by
    norm_num [newObstacle, OBSTACLE_HEIGHT]
  simp only [checkCollision, Player.rect, Obstacle.rect, advance, hy, hh, crouching, duck,
    initialGame, CANVAS_HEIGHT, PLAYER_HEIGHT]
  norm_num

/-- C6, as stated, fails: after exactly 154 ticks at speed 5 an obstacle that
started at `x = 800` with width 30 and never met the player is at `x = 30`,
its trailing edge is at 60, it is still live and no bonus has been credited. -/
theorem obstacleTicks_154_still_live :
    obstacleTicks (OBSTACLE_SPEED * 1) crouching 154 [newObstacle 0 ObstacleType.low] 0 =
      ([{ newObstacle 0 ObstacleType.low with x := 30 }], 0) ∧
    (newObstacle 0 ObstacleType.low).x = 800 ∧
    (newObstacle 0 ObstacleType.low).width = 30 ∧
    ¬((30 : ℚ) + (newObstacle 0 ObstacleType.low).width < 0) := by
  have h := obstacleTicks_retained crouching (newObstacle 0 ObstacleType.low) 0
    (by norm_num [newObstacle, CANVAS_WIDTH]) (by norm_num [newObstacle, OBSTACLE_WIDTH])
    154 (by norm_num) (fun k _ => crouching_misses_low 0 _ k)
  refine ⟨?_, by norm_num [newObstacle, CANVAS_WIDTH], by norm_num [newObstacle, OBSTACLE_WIDTH],
    by norm_num [newObstacle, OBSTACLE_WIDTH]⟩
  have hs : OBSTACLE_SPEED * 1 = 5 := by norm_num [OBSTACLE_SPEED]
  rw [hs, h]
  norm_num [advance, newObstacle, CANVAS_WIDTH]

/-- C6, amended: an obstacle placed at `x = 800` with width 30 and advanced by
the per-tick obstacle update at speed 5 (multiplier 1.0), never overlapping
the player, stays live with no bonus through tick 166 (after `n` ticks it is
at `x = 800 - 5 n`); on tick 167 exactly its trailing edge is below 0, it is
culled and one bonus of `10 * SCORE_INCREMENT` is credited; no further bonus
is credited afterwards. -/
theorem obstacleTicks_culled_at_167 (player : Nat → Player) (d : Int) (ty : ObstacleType)
    (score : Int)
    (hmiss : ∀ k, k < 167 →
      checkCollision (player k).rect (advance (5 * ((k : ℚ) + 1)) (newObstacle d ty)).rect
        = false) :
    (∀ n, n ≤ 166 →
      obstacleTicks (OBSTACLE_SPEED * 1) player n [newObstacle d ty] score =
        ([{ newObstacle d ty with x := 800 - 5 * (n : ℚ) }], score)) ∧
    (∀ n, 167 ≤ n →
      obstacleTicks (OBSTACLE_SPEED * 1) player n [newObstacle d ty] score =
        ([], score + SCORE_INCREMENT * 10)) := by
  have hs : OBSTACLE_SPEED * 1 = 5 := by norm_num [OBSTACLE_SPEED]
  have hx : (newObstacle d ty).x = 800 := by norm_num [newObstacle, CANVAS_WIDTH]
  have hw : (newObstacle d ty).width = 30 := by norm_num [newObstacle, OBSTACLE_WIDTH]
  rw [hs]
  have hlive : ∀ n, n ≤ 166 →
      obstacleTicks 5 player n [newObstacle d ty] score =
        ([advance (5 * (n : ℚ)) (newObstacle d ty)], score) := fun n hn =>
    obstacleTicks_retained player (newObstacle d ty) score hx hw n hn
      (fun k hk => hmiss k (by omega))
  constructor
  · intro n hn
    rw [hlive n hn]
    simp [advance, hx]
  · intro n hn
    obtain ⟨m, rfl⟩ : ∃ m, n = 167 + m := ⟨n - 167, by omega⟩
    induction m with
    | zero =>
      have hc : isCulled 5 (advance (5 * ((166 : Nat) : ℚ)) (newObstacle d ty)) = true := by
        simp only [isCulled, advance_advance, decide_eq_true_eq]
        simp only [advance, hx, hw]
        norm_num
      have h166 := hlive 166 (le_refl _)
      have hcull := filterObstacles_single_culled 5 (player 166) _ score hc
      show obstacleTicks 5 player (166 + 1) [newObstacle d ty] score = _
      rw [obstacleTicks_succ, h166]
      exact Prod.ext hcull.1 hcull.2
    | succ k ih =>
      have hprev := ih (by omega)
      show obstacleTicks 5 player ((167 + k) + 1) [newObstacle d ty] score = _
      rw [obstacleTicks_succ, hprev]
      rfl

/-- Witness for C6: a player crouching under a floating obstacle is never
overlapped; the obstacle is live after tick 166 and gone, with one bonus,
after tick 167. -/
theorem obstacleTicks_culled_at_167_witness :
    obstacleTicks (OBSTACLE_SPEED * 1) crouching 166 [newObstacle 0 ObstacleType.low] 0 =
      ([{ newObstacle 0 ObstacleType.low with x := 800 - 5 * ((166 : Nat) : ℚ) }], 0) ∧
    obstacleTicks (OBSTACLE_SPEED * 1) crouching 167 [newObstacle 0 ObstacleType.low] 0 =
      ([], 0 + SCORE_INCREMENT * 10) :=
  ⟨(obstacleTicks_culled_at_167 crouching 0 ObstacleType.low 0
      (fun k _ => crouching_misses_low 0 _ k)).1 166 (le_refl _),
   (obstacleTicks_culled_at_167 crouching 0 ObstacleType.low 0
      (fun k _ => crouching_misses_low 0 _ k)).2 167 (le_refl _)⟩

/-! ## C8: the spawn policy -/

/-- C8: `spawnObstacle(currentTime)` spawns exactly when
`currentTime - lastObstacleSpawn` is strictly greater than
`OBSTACLE_SPAWN_INTERVAL / difficultyMultiplier`. When it spawns, one obstacle
is appended at the end of the list, with `x = CANVAS_WIDTH = 800`, width 30
and height 60, and `lastObstacleSpawn` becomes `currentTime`; otherwise
nothing changes, in particular neither the list nor `lastObstacleSpawn`. -/
theorem spawnObstacle_spec (currentTime random : ℚ) (dateNow : Int) (g : Game) :
    if spawnInterval g.gameState.difficultyMultiplier <
        ((currentTime - g.gameState.lastObstacleSpawn : ℚ) : WithTop ℚ) then
      (∃ ob : Obstacle,
        (spawnObstacle currentTime random dateNow g).obstacles = g.obstacles ++ [ob] ∧
        ob.x = CANVAS_WIDTH ∧ ob.x = 800 ∧ ob.width = 30 ∧ ob.height = 60) ∧
      (spawnObstacle currentTime random dateNow g).gameState.lastObstacleSpawn = currentTime
    else
      (spawnObstacle currentTime random dateNow g).obstacles = g.obstacles ∧
      (spawnObstacle currentTime random dateNow g).gameState.lastObstacleSpawn =
        g.gameState.lastObstacleSpawn ∧
      spawnObstacle currentTime random dateNow g = g := by
  by_cases h : spawnInterval g.gameState.difficultyMultiplier <
      ((currentTime - g.gameState.lastObstacleSpawn : ℚ) : WithTop ℚ)
  · rw [if_pos h]
    refine ⟨⟨newObstacle dateNow
      (if random > 5 / 10 then ObstacleType.high else ObstacleType.low), ?_, ?_, ?_, ?_, ?_⟩, ?_⟩
    · simp only [spawnObstacle, gt_iff_lt]
      rw [if_pos h]
    · rfl
    · norm_num [newObstacle, CANVAS_WIDTH]
    · norm_num [newObstacle, OBSTACLE_WIDTH]
    · norm_num [newObstacle, OBSTACLE_HEIGHT]
    · simp only [spawnObstacle, gt_iff_lt]
      rw [if_pos h]
  · rw [if_neg h]
    have hg : spawnObstacle currentTime random dateNow g = g := by
      simp only [spawnObstacle, gt_iff_lt]
      rw [if_neg h]
    rw [hg]
    exact ⟨rfl, rfl, rfl⟩

/-! ## C9: which obstacle kind is evaded by ducking -/

/-- C9, as stated, fails: the spawned 'low' obstacle is the one placed higher
on the field (smaller `y`, its lower edge 50 pixels above the ground line at
350), a grounded ducking player overlaps a 'high' obstacle whose horizontal
extent meets the player, and does not overlap a 'low' one in the same place. -/
theorem duck_does_not_evade_high :
    (newObstacle 0 ObstacleType.low).y < (newObstacle 0 ObstacleType.high).y ∧
    (newObstacle 0 ObstacleType.low).y + (newObstacle 0 ObstacleType.low).height = 300 ∧
    (newObstacle 0 ObstacleType.high).y + (newObstacle 0 ObstacleType.high).height = 350 ∧
    checkCollision (duck initialGame.player).rect
      { newObstacle 0 ObstacleType.high with x := 100 }.rect = true ∧
    checkCollision (duck initialGame.player).rect
      { newObstacle 0 ObstacleType.low with x := 100 }.rect = false := by
  rw [newObstacle_low_y, newObstacle_high_y]
  refine ⟨by norm_num, by norm_num [newObstacle, OBSTACLE_HEIGHT],
    by norm_num [newObstacle, OBSTACLE_HEIGHT], ?_, ?_⟩
  · have hy := newObstacle_high_y 0
    simp only [checkCollision, Player.rect, Obstacle.rect, duck, initialGame, hy]
    norm_num [newObstacle, CANVAS_HEIGHT, PLAYER_HEIGHT, PLAYER_WIDTH, OBSTACLE_HEIGHT,
      OBSTACLE_WIDTH]
  · have hy := newObstacle_low_y 0
    simp only [checkCollision, Player.rect, Obstacle.rect, duck, initialGame, hy]
    norm_num [newObstacle, CANVAS_HEIGHT, PLAYER_HEIGHT, PLAYER_WIDTH, OBSTACLE_HEIGHT,
      OBSTACLE_WIDTH]

/-- C9, amended: obstacle kind encodes the required evasive action the other
way round. A spawned 'low' obstacle sits higher on the field than a spawned
'high' one (its lower edge is 50 pixels above the ground line, the 'high' one
stands on the ground line `CANVAS_HEIGHT - 50`). A 'low' obstacle is evaded by
ducking: for every `x` the hitbox of a grounded ducking player does not
overlap it. A 'high' obstacle is not: a grounded ducking player overlaps it
exactly when their horizontal extents intersect, so a jump is required. -/
theorem duck_evades_low_not_high (p : Player)
    (hground : p.groundY = CANVAS_HEIGHT - PLAYER_HEIGHT - 50) (d : Int) (x : ℚ) :
    (newObstacle d ObstacleType.low).y + (newObstacle d ObstacleType.low).height + 50 =
      (newObstacle d ObstacleType.high).y + (newObstacle d ObstacleType.high).height ∧
    (newObstacle d ObstacleType.high).y + (newObstacle d ObstacleType.high).height =
      CANVAS_HEIGHT - 50 ∧
    (duck p).y + (duck p).height = CANVAS_HEIGHT - 50 ∧
    checkCollision (duck p).rect { newObstacle d ObstacleType.low with x := x }.rect = false ∧
    (checkCollision (duck p).rect { newObstacle d ObstacleType.high with x := x }.rect = true ↔
      (p.x < x + OBSTACLE_WIDTH ∧ p.x + p.width > x)) := by
  have hl := newObstacle_low_y d
  have hh := newObstacle_high_y d
  have hlh : (newObstacle d ObstacleType.low).height = 60 := by
    norm_num [newObstacle, OBSTACLE_HEIGHT]
  have hhh : (newObstacle d ObstacleType.high).height = 60 := by
    norm_num [newObstacle, OBSTACLE_HEIGHT]
  have hhw : (newObstacle d ObstacleType.high).width = OBSTACLE_WIDTH := rfl
  have hg : p.groundY = 290 := by
    rw [hground]
    norm_num [CANVAS_HEIGHT, PLAYER_HEIGHT]
  refine ⟨?_, ?_, ?_, ?_, ?_⟩
  · rw [hl, hh, hlh, hhh]
    norm_num
  · rw [hh, hhh]
    norm_num [CANVAS_HEIGHT]
  · simp only [duck, hg, PLAYER_HEIGHT, CANVAS_HEIGHT]
    norm_num
  · simp only [checkCollision, Player.rect, Obstacle.rect, duck, hl, hlh, hg, PLAYER_HEIGHT]
    norm_num
  · simp only [checkCollision, Player.rect, Obstacle.rect, duck, hh, hhh, hhw, hg,
      PLAYER_HEIGHT]
    norm_num

/-- Witness for C9: the initial player, ducking, against both kinds of
obstacle at `x = 100`. -/
theorem duck_evades_low_not_high_witness :
    checkCollision (duck initialGame.player).rect
      { newObstacle 7 ObstacleType.low with x := 100 }.rect = false ∧
    (checkCollision (duck initialGame.player).rect
      { newObstacle 7 ObstacleType.high with x := 100 }.rect = true ↔
      (initialGame.player.x < 100 + OBSTACLE_WIDTH ∧
        initialGame.player.x + initialGame.player.width > 100)) :=
  (duck_evades_low_not_high initialGame.player rfl 7 100).2.2.2

/-! ## C10: a refresh signal that arrives too early -/

/-- C10, as stated, fails: a signal at 1005 ms, 5 ms after the stored last
timestamp, does not invoke the update callback, yet all four clock cells
change: last timestamp, fps estimate, frame counter and fps-window
timestamp. -/
theorem gameLoop_dropped_signal_changes_clock :
    (1005 : ℚ) - 1000 < 1667 / 100 ∧
    (gameLoop true 1005 { lastTime := 1000, fps := 0, frameCount := 59, lastFpsTime := 0 }).update
      = none ∧
    (gameLoop true 1005 { lastTime := 1000, fps := 0, frameCount := 59, lastFpsTime := 0 }).refs
      = { lastTime := 1005, fps := 60, frameCount := 0, lastFpsTime := 1005 } := by
  norm_num [gameLoop]

/-- C10, amended: when a refresh signal arrives while running with
`elapsed < 16.67` ms, the update callback is not invoked and the next frame
is requested, but the frame is still counted for the throughput estimate: if
at least 1000 ms have passed since the fps-window timestamp, the fps estimate
becomes the frame count including this frame, the counter restarts at 0 and
the fps-window timestamp becomes the signal's timestamp; otherwise the
counter is incremented and the fps estimate and the fps-window timestamp keep
their values. -/
theorem gameLoop_early_signal (currentTime : ℚ) (r : LoopRefs)
    (hearly : currentTime - r.lastTime < 1667 / 100) :
    (gameLoop true currentTime r).update = none ∧
    (gameLoop true currentTime r).scheduled = true ∧
    (if currentTime - r.lastFpsTime ≥ 1000 then
      (gameLoop true currentTime r).refs.fps = r.frameCount + 1 ∧
      (gameLoop true currentTime r).refs.frameCount = 0 ∧
      (gameLoop true currentTime r).refs.lastFpsTime = currentTime
    else
      (gameLoop true currentTime r).refs.fps = r.fps ∧
      (gameLoop true currentTime r).refs.frameCount = r.frameCount + 1 ∧
      (gameLoop true currentTime r).refs.lastFpsTime = r.lastFpsTime) := by
  have hnot : ¬(currentTime - r.lastTime ≥ 1667 / 100) := not_le.mpr hearly
  by_cases hw : currentTime - r.lastFpsTime ≥ 1000
  · simp [gameLoop, hnot, hw]
  · simp [gameLoop, hnot, hw]

/-- Witness for C10: a signal 10 ms after the last one, inside the fps
window: no update call, and the frame counter goes from 0 to 1. -/
theorem gameLoop_early_signal_witness :
    (gameLoop true 10 { lastTime := 0, fps := 0, frameCount := 0, lastFpsTime := 0 }).update
      = none ∧
    (gameLoop true 10
      { lastTime := 0, fps := 0, frameCount := 0, lastFpsTime := 0 }).refs.frameCount = 1 := by
  have h := gameLoop_early_signal 10
    { lastTime := 0, fps := 0, frameCount := 0, lastFpsTime := 0 } (by norm_num)
  refine ⟨h.1, ?_⟩
  have h3 := h.2.2
  rw [if_neg (by norm_num)] at h3
  simpa using h3.2.1

/-! ## C11: which signals the frame gate admits -/

theorem gameLoop_refs_lastTime (currentTime : ℚ) (r : LoopRefs) :
    (gameLoop true currentTime r).refs.lastTime = currentTime := by
  by_cases hw : currentTime - r.lastFpsTime ≥ 1000
  · simp [gameLoop, hw]
  · simp [gameLoop, hw]

theorem gameLoop_update_none (currentTime : ℚ) (r : LoopRefs)
    (h : currentTime - r.lastTime < 1667 / 100) :
    (gameLoop true currentTime r).update = none := by
  have hnot : ¬(currentTime - r.lastTime ≥ 1667 / 100) := not_le.mpr h
  simp [gameLoop, hnot]

/-- A stream whose signals are less than 16.67 ms apart never has a tick
admitted, however long it lasts. -/
theorem gameLoopStream_spaced_none (gap : ℚ) (hgap : gap < 1667 / 100) (n : Nat)
    (r : LoopRefs) :
    (gameLoopStream r (spacedStream r.lastTime gap n)).2 = List.replicate n none := by
  induction n generalizing r with
  | zero => rfl
  | succ m ih =>
    have hnone : (gameLoop true (r.lastTime + gap) r).update = none :=
      gameLoop_update_none _ r (by linarith)
    have hlast := gameLoop_refs_lastTime (r.lastTime + gap) r
    have hrest := ih (gameLoop true (r.lastTime + gap) r).refs
    rw [hlast] at hrest
    simp only [spacedStream, gameLoopStream, hnone, hrest, List.replicate_succ]

/-- C11, on the code: the gate measures the elapsed time from the previous
signal, admitted or not, and not from the most recently admitted tick. From a
loop started at 0, of the signals at 20, 30 and 40 ms only the first is
admitted, although the signal at 40 comes 20 ms after the admitted tick at 20;
and of a stream of signals 10 ms apart none is ever admitted. -/
theorem gameLoop_measures_from_previous_signal :
    (gameLoopStream freshRefs [20, 30, 40]).2 = [some (20, 0), none, none] ∧
    (40 : ℚ) - 20 ≥ 1667 / 100 ∧
    ∀ n : Nat, (gameLoopStream freshRefs (spacedStream 0 10 n)).2 = List.replicate n none := by
  refine ⟨?_, by norm_num, fun n => ?_⟩
  · norm_num [gameLoopStream, gameLoop, freshRefs]
  · have h := gameLoopStream_spaced_none 10 (by norm_num) n freshRefs
    simpa [freshRefs] using h

/-! ## C12, C13, C14: the collision test -/

/-- The test `checkCollision` as a proposition. -/
theorem checkCollision_iff (a b : Rect) :
    checkCollision a b = true ↔
      a.x < b.x + b.width ∧ a.x + a.width > b.x ∧ a.y < b.y + b.height ∧ a.y + a.height > b.y := by
  simp [checkCollision, and_assoc]

/-- C12: for all rectangles `a` and `b`, whatever their position and
dimensions, `checkCollision(a, b) = checkCollision(b, a)`. -/
theorem checkCollision_comm (a b : Rect) : checkCollision a b = checkCollision b a := by
  rw [Bool.eq_iff_iff, checkCollision_iff, checkCollision_iff]
  constructor
  · rintro ⟨h1, h2, h3, h4⟩
    exact ⟨h2, h1, h4, h3⟩
  · rintro ⟨h1, h2, h3, h4⟩
    exact ⟨h2, h1, h4, h3⟩

/-- C13: for all rectangles `a` and `b` that touch along an edge
(`a.x + a.width = b.x`, or `b.x + b.width = a.x`, or `a.y + a.height = b.y`,
or `b.y + b.height = a.y`), `checkCollision(a, b)` is false. -/
theorem checkCollision_touching_false (a b : Rect)
    (htouch : a.x + a.width = b.x ∨ b.x + b.width = a.x ∨
      a.y + a.height = b.y ∨ b.y + b.height = a.y) :
    checkCollision a b = false := by
  rw [← Bool.not_eq_true, checkCollision_iff]
  rintro ⟨h1, h2, h3, h4⟩
  rcases htouch with h | h | h | h
  · rw [h] at h2
    exact lt_irrefl _ h2
  · rw [h] at h1
    exact lt_irrefl _ h1
  · rw [h] at h4
    exact lt_irrefl _ h4
  · rw [h] at h3
    exact lt_irrefl _ h3

/-- Witness for C13: two 10 by 10 squares side by side, sharing the edge
`x = 10`. -/
theorem checkCollision_touching_false_witness :
    checkCollision { x := 0, y := 0, width := 10, height := 10 }
      { x := 10, y := 0, width := 10, height := 10 } = false :=
  checkCollision_touching_false { x := 0, y := 0, width := 10, height := 10 }
    { x := 10, y := 0, width := 10, height := 10 } (Or.inl (by norm_num))

/-- C14, as stated, fails: a rectangle of width 0 does not overlap itself. -/
theorem checkCollision_self_degenerate :
    checkCollision { x := 0, y := 0, width := 0, height := 10 }
      { x := 0, y := 0, width := 0, height := 10 } = false := by
  rw [← Bool.not_eq_true, checkCollision_iff]
  norm_num

/-- C14, amended: for every rectangle `a` with positive width and positive
height, `checkCollision(a, a)` is true; for a rectangle whose width or height
is zero or negative it is false. -/
theorem checkCollision_self_iff (a : Rect) :
    checkCollision a a = true ↔ 0 < a.width ∧ 0 < a.height := by
  rw [checkCollision_iff]
  constructor
  · rintro ⟨h1, _, h3, _⟩
    exact ⟨by linarith, by linarith⟩
  · rintro ⟨hw, hh⟩
    exact ⟨by linarith, by linarith, by linarith, by linarith⟩

/-! ## C15, C16: the difficulty curve -/

/-- The floor in `getDifficultyMultiplier` is integer floor division. -/
theorem getDifficultyMultiplier_eq_div (score : Int) :
    getDifficultyMultiplier score = 1 + ((score / 1000 : Int) : ℚ) * (2 / 10) := by
  have h := Rat.floor_intCast_div_natCast score 1000
  simp only [Nat.cast_ofNat] at h
  simp only [getDifficultyMultiplier, h]

theorem getDifficultyMultiplier_le_of_le {s1 s2 : Int} (h : s1 ≤ s2) :
    getDifficultyMultiplier s1 ≤ getDifficultyMultiplier s2 := by
  rw [getDifficultyMultiplier_eq_div, getDifficultyMultiplier_eq_div]
  have hdiv : s1 / 1000 ≤ s2 / 1000 := Int.ediv_le_ediv (by norm_num) h
  have hq : ((s1 / 1000 : Int) : ℚ) ≤ ((s2 / 1000 : Int) : ℚ) := by exact_mod_cast hdiv
  linarith

/-- C15: for every integer score, in particular every non-negative one,
`getDifficultyMultiplier(score) = 1 + floor(score / 1000) * 0.2` in exact
rational arithmetic, the floor being integer floor division by 1000; it
returns 1, 1, 1.2, 1.4 and 1.6 for the scores 0, 999, 1000, 2999 and 3000. -/
theorem getDifficultyMultiplier_formula :
    (∀ score : Int,
      getDifficultyMultiplier score = 1 + ((⌊(score : ℚ) / 1000⌋ : Int) : ℚ) * (2 / 10) ∧
      ⌊(score : ℚ) / 1000⌋ = score / 1000) ∧
    getDifficultyMultiplier 0 = 1 ∧
    getDifficultyMultiplier 999 = 1 ∧
    getDifficultyMultiplier 1000 = 12 / 10 ∧
    getDifficultyMultiplier 2999 = 14 / 10 ∧
    getDifficultyMultiplier 3000 = 16 / 10 := by
  refine ⟨fun score => ⟨rfl, ?_⟩, ?_, ?_, ?_, ?_, ?_⟩
  · have h := Rat.floor_intCast_div_natCast score 1000
    simpa using h
  all_goals
    rw [getDifficultyMultiplier_eq_div]
    norm_num

/-- C16: `getDifficultyMultiplier` is monotone non-decreasing: for all
scores `s1 <= s2`, `getDifficultyMultiplier(s1) <= getDifficultyMultiplier(s2)`;
and it is constant on each plateau `[1000 k, 1000 k + 999]`, where it equals
`1 + 0.2 k`, the value at `1000 k`. -/
theorem getDifficultyMultiplier_monotone_plateaus :
    (∀ s1 s2 : Int, s1 ≤ s2 → getDifficultyMultiplier s1 ≤ getDifficultyMultiplier s2) ∧
    (∀ k s : Int, 1000 * k ≤ s → s ≤ 1000 * k + 999 →
      getDifficultyMultiplier s = 1 + (k : ℚ) * (2 / 10) ∧
      getDifficultyMultiplier s = getDifficultyMultiplier (1000 * k)) := by
  refine ⟨fun s1 s2 hle => getDifficultyMultiplier_le_of_le hle, fun k s hlo hhi => ?_⟩
  have hk : s / 1000 = k := by omega
  have hk0 : (1000 * k) / 1000 = k := by omega
  constructor
  · rw [getDifficultyMultiplier_eq_div, hk]
  · rw [getDifficultyMultiplier_eq_div, getDifficultyMultiplier_eq_div, hk, hk0]

/-- Witness for C16: scores 1500 and 2100, and 1500 on the plateau
`[1000, 1999]`. -/
theorem getDifficultyMultiplier_monotone_plateaus_witness :
    getDifficultyMultiplier 1500 ≤ getDifficultyMultiplier 2100 ∧
    getDifficultyMultiplier 1500 = 1 + ((1 : Int) : ℚ) * (2 / 10) ∧
    getDifficultyMultiplier 1500 = getDifficultyMultiplier (1000 * 1) :=
  ⟨getDifficultyMultiplier_monotone_plateaus.1 1500 2100 (by norm_num),
   getDifficultyMultiplier_monotone_plateaus.2 1 1500 (by norm_num) (by norm_num)⟩

/-! ## C17: the stored difficulty multiplier -/

theorem updateDifficulty_multiplier_cases (t : ℚ) (gs : GameState) :
    (updateDifficulty t gs).difficultyMultiplier = gs.difficultyMultiplier ∨
    (updateDifficulty t gs).difficultyMultiplier = getDifficultyMultiplier gs.score := by
  unfold updateDifficulty
  split
  · exact Or.inr rfl
  · exact Or.inl rfl

theorem spawnObstacle_multiplier (t rnd : ℚ) (d : Int) (g : Game) :
    (spawnObstacle t rnd d g).gameState.difficultyMultiplier =
      g.gameState.difficultyMultiplier := by
  unfold spawnObstacle
  simp only
  split <;> rfl

theorem updateGround_multiplier (gs : GameState) :
    (updateGround gs).difficultyMultiplier = gs.difficultyMultiplier := by
  unfold updateGround
  simp only
  split <;> rfl

theorem updateGame_multiplier (env : TickEnv) (g : Game) :
    (updateGame env g).1.gameState.difficultyMultiplier =
      (updateDifficulty env.now g.gameState).difficultyMultiplier := by
  simp [updateGame, updateGround_multiplier, beforeObstacles, spawnObstacle_multiplier]

theorem updateGame_multiplier_le (env : TickEnv) (g : Game) (h : MultiplierBounded g) :
    g.gameState.difficultyMultiplier ≤ (updateGame env g).1.gameState.difficultyMultiplier := by
  rw [updateGame_multiplier]
  rcases updateDifficulty_multiplier_cases env.now g.gameState with hc | hc
  · rw [hc]
  · rw [hc]
    exact h.2

theorem updateGame_bounded (env : TickEnv) (g : Game) (h : MultiplierBounded g) :
    MultiplierBounded (updateGame env g).1 := by
  have hscore := getDifficultyMultiplier_le_of_le (updateGame_score_le env g)
  constructor
  · exact le_trans h.1 (updateGame_multiplier_le env g h)
  · rw [updateGame_multiplier]
    rcases updateDifficulty_multiplier_cases env.now g.gameState with hc | hc
    · rw [hc]
      exact le_trans h.2 hscore
    · rw [hc]
      exact hscore

theorem step_bounded (g : Game) (i : Input) (h : MultiplierBounded g) :
    MultiplierBounded (step g i) := by
  cases i with
  | tick env => exact updateGame_bounded env g h
  | _ => exact h

theorem run_bounded (g : Game) (inputs : List Input) (h : MultiplierBounded g) :
    MultiplierBounded (run g inputs) := by
  induction inputs generalizing g with
  | nil => simpa [run] using h
  | cons i rest ih =>
    have h2 := ih (step g i) (step_bounded g i h)
    simpa [run] using h2

theorem resetGame_bounded (g : Game) : MultiplierBounded (resetGame g) := by
  constructor
  · simp [resetGame]
  · rw [getDifficultyMultiplier_eq_div]
    simp [resetGame]

/-- C17: within a session, that is from the state `resetGame` produces and
after any finite sequence of ticks (with any clock readings, non-decreasing or
not, and interleaved with any input events), the stored `difficultyMultiplier`
is at least 1, and the next tick does not decrease it. -/
theorem difficultyMultiplier_ge_one_nondecreasing (g0 : Game) (inputs : List Input)
    (env : TickEnv) :
    1 ≤ (run (resetGame g0) inputs).gameState.difficultyMultiplier ∧
    (run (resetGame g0) inputs).gameState.difficultyMultiplier ≤
      (updateGame env (run (resetGame g0) inputs)).1.gameState.difficultyMultiplier := by
  have h := run_bounded (resetGame g0) inputs (resetGame_bounded g0)
  exact ⟨h.1, updateGame_multiplier_le env _ h⟩

/-! ## C18: disallowed intents -/

/-- C18: a jump request, by one of the keys Space, ArrowUp, KeyW or by a touch
in the upper half, while the player is ducking leaves the whole player object
unchanged and makes no call; so does a duck request, by ArrowDown, KeyS or a
touch in the lower half, while the player is airborne. -/
theorem disallowed_intents_are_noops (isGameRunning isPaused : Bool) (p : Player)
    (touchY canvasHeight : ℚ) :
    (p.isDucking = true →
      handleKeyDown isGameRunning isPaused "Space" p = (p, []) ∧
      handleKeyDown isGameRunning isPaused "ArrowUp" p = (p, []) ∧
      handleKeyDown isGameRunning isPaused "KeyW" p = (p, []) ∧
      (touchY < canvasHeight / 2 →
        handleTouchStart isGameRunning isPaused touchY canvasHeight p = (p, []))) ∧
    (p.isJumping = true →
      handleKeyDown isGameRunning isPaused "ArrowDown" p = (p, []) ∧
      handleKeyDown isGameRunning isPaused "KeyS" p = (p, []) ∧
      (¬touchY < canvasHeight / 2 →
        handleTouchStart isGameRunning isPaused touchY canvasHeight p = (p, []))) := by
  constructor
  · intro hd
    refine ⟨?_, ?_, ?_, fun ht => ?_⟩
    · simp [handleKeyDown, hd]
    · simp [handleKeyDown, hd]
    · simp [handleKeyDown, hd]
    · simp [handleTouchStart, hd, ht]
  · intro hj
    refine ⟨?_, ?_, fun ht => ?_⟩
    · simp [handleKeyDown, hj]
    · simp [handleKeyDown, hj]
    · simp [handleTouchStart, hj, ht]

/-- Witness for C18: Space pressed on a ducking player and ArrowDown pressed
on an airborne player, in a running, unpaused game. -/
theorem disallowed_intents_are_noops_witness :
    handleKeyDown true false "Space" (duck initialGame.player) =
      (duck initialGame.player, []) ∧
    handleKeyDown true false "ArrowDown" (jump initialGame.player).1 =
      ((jump initialGame.player).1, []) :=
  ⟨((disallowed_intents_are_noops true false (duck initialGame.player) 0 0).1 rfl).1,
   ((disallowed_intents_are_noops true false (jump initialGame.player).1 0 0).2 rfl).1⟩

/-! ## C19: one physics tick -/

/-- C19: in one tick of `updateGame`, an airborne player gets
`velocityY + GRAVITY` as its new velocity and `y` plus that new velocity as
its new position; if that position reaches `groundY` the player is instead
put at `y = groundY` with velocity 0 and is no longer airborne, otherwise it
stays airborne; no other field changes. A player that is not airborne is left
unchanged in every field. -/
theorem updateGame_physics (env : TickEnv) (g : Game) :
    if g.player.isJumping = true then
      if g.player.y + (g.player.velocityY + GRAVITY) ≥ g.player.groundY then
        (updateGame env g).1.player =
          { g.player with y := g.player.groundY, velocityY := 0, isJumping := false }
      else
        (updateGame env g).1.player =
          { g.player with
            velocityY := g.player.velocityY + GRAVITY
            y := g.player.y + (g.player.velocityY + GRAVITY) } ∧
        (updateGame env g).1.player.isJumping = true
    else (updateGame env g).1.player = g.player := by
  rw [updateGame_player]
  by_cases hj : g.player.isJumping = true
  · rw [if_pos hj]
    by_cases hland : g.player.y + (g.player.velocityY + GRAVITY) ≥ g.player.groundY
    · rw [if_pos hland]
      simp [updatePlayer, hj, hland]
    · rw [if_neg hland]
      simp [updatePlayer, hj, hland]
  · rw [if_neg hj]
    simp [updatePlayer, hj]

/-! ## C20: duck and release -/

/-- C20: for a player standing on the ground (not airborne, not ducking,
height `PLAYER_HEIGHT = 60`, `y = groundY`), `duck` halves the height to 30
and keeps the baseline `y + height` at `groundY + PLAYER_HEIGHT`; `standUp`
restores height 60 and `y = groundY`; duck followed by release, by the
functions themselves, by the ArrowDown key or by a lower-half touch, returns
exactly the player object there was before ducking. -/
theorem duck_then_standUp (p : Player)
    (hj : p.isJumping = false) (hd : p.isDucking = false)
    (hh : p.height = PLAYER_HEIGHT) (hy : p.y = p.groundY) :
    PLAYER_HEIGHT = 60 ∧
    (duck p).height = 30 ∧
    (duck p).isDucking = true ∧
    (duck p).y + (duck p).height = p.y + p.height ∧
    (duck p).y + (duck p).height = p.groundY + PLAYER_HEIGHT ∧
    (standUp (duck p)).height = 60 ∧
    (standUp (duck p)).y = p.groundY ∧
    standUp (duck p) = p ∧
    handleKeyUp "ArrowDown" (handleKeyDown true false "ArrowDown" p).1 = p ∧
    handleTouchEnd (handleTouchStart true false 300 400 p).1 = p := by
  have hback : standUp (duck p) = p := by
    cases p
    simp only [duck, standUp] at *
    simp [hd, hh, hy]
  have hkey : (handleKeyDown true false "ArrowDown" p).1 = duck p := by
    simp [handleKeyDown, hj]
  have htouch : (handleTouchStart true false 300 400 p).1 = duck p := by
    have hlow : ¬((300 : ℚ) < 400 / 2) := by norm_num
    simp [handleTouchStart, hj, hlow]
  have hducked : (duck p).isDucking = true := rfl
  refine ⟨by norm_num [PLAYER_HEIGHT], by norm_num [duck, PLAYER_HEIGHT], rfl, ?_, ?_,
    by norm_num [duck, standUp, PLAYER_HEIGHT], rfl, hback, ?_, ?_⟩
  · simp only [duck, hh, hy, PLAYER_HEIGHT]
    ring
  · simp only [duck, PLAYER_HEIGHT]
    ring
  · rw [hkey]
    simp [handleKeyUp, hducked, hback]
  · rw [htouch]
    simp [handleTouchEnd, hducked, hback]

/-- Witness for C20: the initial player ducks and stands up again. -/
theorem duck_then_standUp_witness :
    (duck initialGame.player).height = 30 ∧
    standUp (duck initialGame.player) = initialGame.player :=
  ⟨(duck_then_standUp initialGame.player rfl rfl rfl rfl).2.1,
   (duck_then_standUp initialGame.player rfl rfl rfl rfl).2.2.2.2.2.2.2.1⟩

/-! ## C21: reset -/

/-- C21: whatever the player, obstacle list and session state before,
`resetGame` produces exactly the initial state: player at `x = 100`,
`y = groundY = 290`, width 40, height 60, velocity 0, not jumping, not
ducking; no obstacle; score 0, last spawn 0, ground offset 0, multiplier 1,
last difficulty increase 0. It is the state the cells are created with, and
it is what a restart request of `App` (which raises the restart trigger above
0) makes the canvas effect install. -/
theorem resetGame_initial_state (g : Game) :
    resetGame g =
      { player :=
          { x := 100, y := 290, width := 40, height := 60, velocityY := 0,
            isJumping := false, isDucking := false, groundY := 290 }
        obstacles := []
        gameState :=
          { score := 0, lastObstacleSpawn := 0, groundOffset := 0,
            difficultyMultiplier := 1, lastDifficultyIncrease := 0 } } ∧
    resetGame g = initialGame ∧
    ∀ s : AppState, 0 ≤ s.restartTrigger →
      restartEffect (App.handleRestart s).restartTrigger g = initialGame := by
  refine ⟨?_, rfl, fun s hs => ?_⟩
  · norm_num [resetGame, CANVAS_HEIGHT, PLAYER_HEIGHT, PLAYER_WIDTH]
  · have hne : s.restartTrigger + 1 ≠ 0 := by omega
    simp only [restartEffect, App.handleRestart, ne_eq, hne, not_false_eq_true, if_true]
    rfl

/-- Witness for C21: a restart during the collision session `twoUnderfoot`,
from an `App` state whose trigger is 3. -/
theorem resetGame_initial_state_witness :
    restartEffect (App.handleRestart
      { gameState := GameStatus.playing, score := 57, showLeaderboard := false,
        showControls := false, restartTrigger := 3 }).restartTrigger twoUnderfoot
      = initialGame :=
  (resetGame_initial_state twoUnderfoot).2.2
    { gameState := GameStatus.playing, score := 57, showLeaderboard := false,
      showControls := false, restartTrigger := 3 } (by norm_num)

/-! ## C22: input while paused -/

/-- C22, as stated, fails: while the game is paused, releasing ArrowDown on a
ducking player changes the player (it stands up: height 30 becomes 60, `y`
320 becomes 290, `isDucking` is cleared), because `handleKeyUp` does not look
at the pause flag; `handleTouchEnd` does the same. -/
theorem keyUp_while_paused_changes_player :
    (step { initialGame with player := duck initialGame.player }
      (Input.keyUp "ArrowDown")).player ≠ duck initialGame.player ∧
    (step { initialGame with player := duck initialGame.player }
      (Input.keyUp "ArrowDown")).player = initialGame.player ∧
    (step { initialGame with player := duck initialGame.player }
      Input.touchEnd).player = initialGame.player := by
  have hstand : standUp (duck initialGame.player) = initialGame.player := by
    simp [standUp, duck, initialGame]
  have hup : (step { initialGame with player := duck initialGame.player }
      (Input.keyUp "ArrowDown")).player = initialGame.player := by
    simp [step, handleKeyUp, duck, hstand]
    simpa [duck] using hstand
  refine ⟨?_, hup, ?_⟩
  · rw [hup]
    intro h
    have hd := congrArg Player.isDucking h
    simp [duck, initialGame] at hd
  · simp [step, handleTouchEnd, duck]
    simpa [duck] using hstand

/-- C22, amended: while the game is paused, the key-down and touch-start
handlers change no field of the player, the obstacle list or the session
state; the key-up and touch-end handlers never change the obstacle list or
the session state, and change no field of the player when the player is not
ducking. -/
theorem paused_input_frozen (g : Game) (isGameRunning : Bool) (code : String)
    (touchY canvasHeight : ℚ) :
    step g (Input.keyDown isGameRunning true code) = g ∧
    step g (Input.touchStart isGameRunning true touchY canvasHeight) = g ∧
    (step g (Input.keyUp code)).obstacles = g.obstacles ∧
    (step g (Input.keyUp code)).gameState = g.gameState ∧
    (step g Input.touchEnd).obstacles = g.obstacles ∧
    (step g Input.touchEnd).gameState = g.gameState ∧
    (g.player.isDucking = false →
      step g (Input.keyUp code) = g ∧ step g Input.touchEnd = g) := by
  refine ⟨?_, ?_, rfl, rfl, rfl, rfl, fun hd => ⟨?_, ?_⟩⟩
  · simp [step, handleKeyDown]
  · simp [step, handleTouchStart]
  · simp [step, handleKeyUp, hd]
  · simp [step, handleTouchEnd, hd]

/-- Witness for C22: the initial session, paused; Space is pressed and
ArrowDown is released. -/
theorem paused_input_frozen_witness :
    step initialGame (Input.keyDown true true "Space") = initialGame ∧
    step initialGame (Input.keyUp "ArrowDown") = initialGame :=
  ⟨(paused_input_frozen initialGame true "Space" 0 0).1,
   ((paused_input_frozen initialGame true "ArrowDown" 0 0).2.2.2.2.2.2 rfl).1⟩

/-! ## C23: what a pause does to the timers -/

theorem gameLoop_update_elapsed (currentTime : ℚ) (r : LoopRefs) :
    (gameLoop true currentTime r).update.map Prod.fst =
      if currentTime - r.lastTime ≥ 1667 / 100 then some (currentTime - r.lastTime)
      else none := by
  by_cases h : currentTime - r.lastTime ≥ 1667 / 100
  · simp [gameLoop, h]
  · simp [gameLoop, h]

/-- The elapsed values the gate passes on depend on the clock cells only
through the stored last timestamp. -/
theorem gameLoopStream_elapsed_congr (signals : List ℚ) (r r' : LoopRefs)
    (h : r.lastTime = r'.lastTime) :
    (gameLoopStream r signals).2.map (Option.map Prod.fst) =
      (gameLoopStream r' signals).2.map (Option.map Prod.fst) := by
  induction signals generalizing r r' with
  | nil => rfl
  | cons t rest ih =>
    have hrest := ih (gameLoop true t r).refs (gameLoop true t r').refs
      (by rw [gameLoop_refs_lastTime, gameLoop_refs_lastTime])
    have hhead : (gameLoop true t r).update.map Prod.fst =
        (gameLoop true t r').update.map Prod.fst := by
      rw [gameLoop_update_elapsed, gameLoop_update_elapsed, h]
    simp only [gameLoopStream, List.map_cons, hrest, hhead]

/-- C23, as stated, fails: a session whose last spawn and last difficulty
recomputation were at clock time 1000 is paused at 1500 and resumed at 20000
(a pause changes none of the game cells). The first tick after resume reads
the clock at 20020: only 520 ms of running time have passed since the last
spawn and recomputation, below both intervals, yet the tick spawns an
obstacle and recomputes the difficulty, because both tests use the clock
reading minus the stored timestamp. -/
theorem pause_counts_for_spawn_and_difficulty :
    ((1500 : ℚ) - 1000) + (20020 - 20000) ≤ OBSTACLE_SPAWN_INTERVAL / 1 ∧
    ((1500 : ℚ) - 1000) + (20020 - 20000) ≤ DIFFICULTY_INCREASE_INTERVAL ∧
    sessionAt1000.obstacles = [] ∧
    (updateGame { now := 20020, random := 0, dateNow := 0 } sessionAt1000).1.obstacles.length
      = 1 ∧
    (updateGame { now := 20020, random := 0, dateNow := 0 }
      sessionAt1000).1.gameState.lastObstacleSpawn = 20020 ∧
    (updateGame { now := 20020, random := 0, dateNow := 0 }
      sessionAt1000).1.gameState.lastDifficultyIncrease = 20020 := by
  refine ⟨by norm_num [OBSTACLE_SPAWN_INTERVAL], by norm_num [DIFFICULTY_INCREASE_INTERVAL],
    rfl, ?_, ?_, ?_⟩ <;>
  norm_num [updateGame, sessionAt1000, initialGame, beforeObstacles, spawnObstacle_eq,
    updatePlayer, updateDifficulty, getDifficultyMultiplier_eq_div, filterObstacles,
    obstacleCallback, obstacleSpeed, updateGround, newObstacle, checkCollision, Player.rect,
    Obstacle.rect, OBSTACLE_SPEED, OBSTACLE_SPAWN_INTERVAL, DIFFICULTY_INCREASE_INTERVAL,
    CANVAS_HEIGHT, CANVAS_WIDTH, PLAYER_HEIGHT, PLAYER_WIDTH, OBSTACLE_HEIGHT, OBSTACLE_WIDTH,
    SCORE_INCREMENT, GROUND_SPEED]

/-- C23, amended: the duration of a pause is not counted in the elapsed value
of the frame gate. Disarming the loop at `t1` changes no clock cell; re-arming
it at `t2` re-bases the stored last timestamp to `t2`; so the first signal
after resume, at time `T`, is admitted exactly when `T - t2 >= 16.67` and is
then passed `elapsed = T - t2`, and every elapsed value passed on after the
resume is the same whatever the clock cells were before the pause. -/
theorem resume_rebases_elapsed (r : LoopRefs) (t1 t2 T : ℚ) :
    loopEffect false t1 r = r ∧
    (loopEffect true t2 (loopEffect false t1 r)).lastTime = t2 ∧
    (gameLoop true T (loopEffect true t2 (loopEffect false t1 r))).update.map Prod.fst =
      (if T - t2 ≥ 1667 / 100 then some (T - t2) else none) ∧
    ∀ (r' : LoopRefs) (signals : List ℚ),
      (gameLoopStream (loopEffect true t2 (loopEffect false t1 r)) signals).2.map
          (Option.map Prod.fst) =
        (gameLoopStream (loopEffect true t2 r') signals).2.map (Option.map Prod.fst) := by
  refine ⟨rfl, rfl, ?_, fun r' signals => ?_⟩
  · rw [gameLoop_update_elapsed]
    rfl
  · exact gameLoopStream_elapsed_congr signals _ _ rfl

/-! ## C24: the milestone banner -/

/-- C24, as stated, fails: in a session with score 499 a tick in which an
obstacle is culled reports the scores 509 and 510; the score has crossed 500
(`499 < 500 * 1 <= 509`), and the milestone condition holds for neither
reported score. -/
theorem milestone_skipped_by_bonus :
    nearMilestone.gameState.score = 499 ∧
    scoreUpdates (updateGame quietEnv nearMilestone).2 = [509, 510] ∧
    (499 : Int) < 500 * 1 ∧ (500 : Int) * 1 ≤ 509 ∧
    milestoneShown 509 true = false ∧
    milestoneShown 510 true = false := by
  refine ⟨rfl, ?_, by norm_num, by norm_num, by decide, by decide⟩
  norm_num [updateGame, nearMilestone, quietEnv, initialGame, beforeObstacles,
    spawnObstacle_eq, updatePlayer, updateDifficulty, filterObstacles, obstacleCallback,
    obstacleSpeed, updateGround, newObstacle, checkCollision, Player.rect, Obstacle.rect,
    scoreUpdates, OBSTACLE_SPEED, OBSTACLE_SPAWN_INTERVAL, DIFFICULTY_INCREASE_INTERVAL,
    CANVAS_HEIGHT, CANVAS_WIDTH, PLAYER_HEIGHT, PLAYER_WIDTH, OBSTACLE_HEIGHT, OBSTACLE_WIDTH,
    SCORE_INCREMENT, GROUND_SPEED]

/-- C24, amended: while the game is running, the milestone is signalled
exactly when the score shown is a positive multiple of 500. Hence a crossing
of a positive multiple of 500 is signalled whenever the score arrives by a
step of 1: for consecutive scores `s_new = s_old + 1` and `k >= 1` with
`s_old < 500 k <= s_new`, the milestone condition holds for `s_new`. -/
theorem milestone_iff_multiple :
    (∀ (score : Int) (isGameRunning : Bool),
      milestoneShown score isGameRunning = true ↔
        0 < score ∧ score % 500 = 0 ∧ isGameRunning = true) ∧
    (∀ s_old s_new k : Int, 1 ≤ k → s_old < 500 * k → 500 * k ≤ s_new →
      s_new = s_old + 1 → milestoneShown s_new true = true) := by
  constructor
  · intro score isGameRunning
    simp [milestoneShown, and_assoc]
  · intro s_old s_new k hk hlo hhi hstep
    have hs : s_new = 500 * k := by omega
    have hpos : 0 < s_new := by omega
    have hmod : s_new % 500 = 0 := by omega
    simp [milestoneShown, hpos, hmod]

/-- Witness for C24: the score goes from 999 to 1000. -/
theorem milestone_iff_multiple_witness : milestoneShown 1000 true = true :=
  milestone_iff_multiple.2 999 1000 2 (by norm_num) (by norm_num) (by norm_num) (by norm_num)

/-! ## C25: session-control requests -/

/-- Every key leaves `gameState` alone or moves it along one of the three
transitions pause, resume, restart. -/
theorem App.handleKeyDown_transitions (code : String) (s : AppState) :
    (App.handleKeyDown code s).gameState = s.gameState ∨
    (s.gameState = GameStatus.playing ∧
      (App.handleKeyDown code s).gameState = GameStatus.paused) ∨
    (s.gameState = GameStatus.paused ∧
      (App.handleKeyDown code s).gameState = GameStatus.playing) ∨
    (s.gameState = GameStatus.gameOver ∧
      (App.handleKeyDown code s).gameState = GameStatus.playing) := by
  unfold App.handleKeyDown
  cases hs : s.gameState <;> split_ifs <;>
    simp_all [App.handlePause, App.handleResume, App.handleRestart]

/-- C25: session-control requests that do not apply in the current state
leave the game state alone. The pause/resume keys (KeyP, Escape) and the HUD
pause/resume button move `playing` to `paused` and `paused` to `playing` and
nothing else; the restart key (KeyR), the HUD restart button and the play-again
button move `playing`, `paused` or `gameOver` to `playing` and nothing else.
In `menu` and `gameOver` the key KeyP changes nothing at all, in `menu` the key
KeyR changes nothing at all, and a button that would make an inapplicable
request is not on screen. -/
theorem session_controls_guarded (s : AppState) :
    (∀ code : String, code = "KeyP" ∨ code = "Escape" →
      (s.gameState = GameStatus.playing →
        (App.handleKeyDown code s).gameState = GameStatus.paused) ∧
      (s.gameState = GameStatus.paused →
        (App.handleKeyDown code s).gameState = GameStatus.playing) ∧
      (s.gameState = GameStatus.menu ∨ s.gameState = GameStatus.gameOver →
        (App.handleKeyDown code s).gameState = s.gameState)) ∧
    (s.gameState = GameStatus.menu ∨ s.gameState = GameStatus.gameOver →
      App.handleKeyDown "KeyP" s = s) ∧
    (s.gameState ≠ GameStatus.menu →
      (App.handleKeyDown "KeyR" s).gameState = GameStatus.playing) ∧
    (s.gameState = GameStatus.menu → App.handleKeyDown "KeyR" s = s) ∧
    (∀ s' : AppState, App.hudPauseResumeClick s = some s' →
      (s.gameState = GameStatus.playing ∧ s'.gameState = GameStatus.paused) ∨
      (s.gameState = GameStatus.paused ∧ s'.gameState = GameStatus.playing)) ∧
    (∀ s' : AppState, App.hudRestartClick s = some s' →
      (s.gameState = GameStatus.playing ∨ s.gameState = GameStatus.paused) ∧
      s'.gameState = GameStatus.playing) ∧
    (∀ s' : AppState, App.playAgainClick s = some s' →
      s.gameState = GameStatus.gameOver ∧ s'.gameState = GameStatus.playing) := by
  refine ⟨?_, ?_, ?_, ?_, ?_, ?_, ?_⟩
  · rintro code (rfl | rfl)
    · refine ⟨fun h => ?_, fun h => ?_, fun h => ?_⟩
      · simp [App.handleKeyDown, App.handlePause, h]
      · simp [App.handleKeyDown, App.handleResume, h]
      · rcases h with h | h <;> simp [App.handleKeyDown, h]
    · refine ⟨fun h => ?_, fun h => ?_, fun h => ?_⟩
      · simp [App.handleKeyDown, App.handlePause, h]
      · simp [App.handleKeyDown, App.handleResume, h]
      · rcases h with h | h <;>
          simp only [App.handleKeyDown, h] <;> split_ifs <;> simp_all
  · rintro (h | h) <;> simp [App.handleKeyDown, h]
  · intro h
    cases hs : s.gameState <;> simp_all [App.handleKeyDown, App.handleRestart]
  · intro h
    simp [App.handleKeyDown, h]
  · intro s' h
    cases hs : s.gameState <;>
      simp_all [App.hudPauseResumeClick, App.isGameRunning, App.isPaused, App.handlePause,
        App.handleResume]
    all_goals
      subst h
      rfl
  · intro s' h
    cases hs : s.gameState <;>
      simp_all [App.hudRestartClick, App.isGameRunning, App.handleRestart]
    all_goals
      subst h
      rfl
  · intro s' h
    cases hs : s.gameState <;>
      simp_all [App.playAgainClick, App.handleRestart]
    subst h
    rfl

/-- Witness for C25: in the menu the pause key and the restart key change
nothing; while playing the pause key pauses. -/
theorem session_controls_guarded_witness :
    App.handleKeyDown "KeyP"
      { gameState := GameStatus.menu, score := 0, showLeaderboard := false,
        showControls := false, restartTrigger := 0 } =
      { gameState := GameStatus.menu, score := 0, showLeaderboard := false,
        showControls := false, restartTrigger := 0 } ∧
    App.handleKeyDown "KeyR"
      { gameState := GameStatus.menu, score := 0, showLeaderboard := false,
        showControls := false, restartTrigger := 0 } =
      { gameState := GameStatus.menu, score := 0, showLeaderboard := false,
        showControls := false, restartTrigger := 0 } ∧
    (App.handleKeyDown "KeyP"
      { gameState := GameStatus.playing, score := 12, showLeaderboard := false,
        showControls := false, restartTrigger := 1 }).gameState = GameStatus.paused :=
  ⟨(session_controls_guarded
      { gameState := GameStatus.menu, score := 0, showLeaderboard := false,
        showControls := false, restartTrigger := 0 }).2.1 (Or.inl rfl),
   (session_controls_guarded
      { gameState := GameStatus.menu, score := 0, showLeaderboard := false,
        showControls := false, restartTrigger := 0 }).2.2.2.1 rfl,
   ((session_controls_guarded
      { gameState := GameStatus.playing, score := 12, showLeaderboard := false,
        showControls := false, restartTrigger := 1 }).1 "KeyP" (Or.inl rfl)).1 rfl⟩

/-! ## C26: the flight of a jump -/

theorem jumpedPlayer_eq :
    jumpedPlayer =
      { x := 100, y := 290, width := 40, height := 60, velocityY := -15,
        isJumping := true, isDucking := false, groundY := 290 } := by
  norm_num [jumpedPlayer, jump, initialGame, CANVAS_HEIGHT, PLAYER_HEIGHT, PLAYER_WIDTH,
    PLAYER_JUMP_SPEED]

theorem initialPlayer_eq :
    initialGame.player =
      { x := 100, y := 290, width := 40, height := 60, velocityY := 0,
        isJumping := false, isDucking := false, groundY := 290 } := by
  norm_num [initialGame, CANVAS_HEIGHT, PLAYER_HEIGHT, PLAYER_WIDTH]

theorem arcY_succ (n : Nat) :
    arcY (n + 1) = arcY n + (-15 + 8 / 10 * (n : ℚ) + 8 / 10) := by
  simp only [arcY]
  push_cast
  ring

theorem arcY_lt_ground (n : Nat) (h1 : 1 ≤ n) (h2 : n ≤ 36) : arcY n < 290 := by
  have hq1 : (1 : ℚ) ≤ (n : ℚ) := by exact_mod_cast h1
  have hq2 : (n : ℚ) ≤ 36 := by exact_mod_cast h2
  simp only [arcY]
  nlinarith

theorem arcY_ge_apex (n : Nat) : 1568 / 10 ≤ arcY n := by
  simp only [arcY]
  by_cases h : n ≤ 18
  · have hq : (n : ℚ) ≤ 18 := by exact_mod_cast h
    nlinarith
  · have h19 : 19 ≤ n := by omega
    have hq : (19 : ℚ) ≤ (n : ℚ) := by exact_mod_cast h19
    nlinarith

/-- The airborne player after `n` physics ticks of a jump, for `n <= 36`. -/
theorem flight_closed_form (n : Nat) (hn : n ≤ 36) :
    updatePlayer^[n] jumpedPlayer =
      { x := 100, y := arcY n, width := 40, height := 60,
        velocityY := -15 + 8 / 10 * (n : ℚ), isJumping := true, isDucking := false,
        groundY := 290 } := by
  induction n with
  | zero =>
    rw [Function.iterate_zero, id_eq, jumpedPlayer_eq]
    simp [arcY]
  | succ m ih =>
    have hprev := ih (by omega)
    have hlt : arcY (m + 1) < 290 := arcY_lt_ground (m + 1) (by omega) hn
    rw [arcY_succ] at hlt
    have hnot : ¬(arcY m + (-15 + 8 / 10 * (m : ℚ) + GRAVITY) ≥ 290) := by
      simp only [GRAVITY]
      exact not_le.mpr hlt
    rw [Function.iterate_succ_apply', hprev]
    simp only [updatePlayer, if_true, hnot, if_false]
    rw [arcY_succ]
    simp only [GRAVITY]
    push_cast
    congr 1
    ring

theorem flight_landing : updatePlayer^[37] jumpedPlayer = initialGame.player := by
  have h36 := flight_closed_form 36 (le_refl _)
  have hland : arcY 36 + (-15 + 8 / 10 * ((36 : Nat) : ℚ) + GRAVITY) ≥ 290 := by
    norm_num [arcY, GRAVITY]
  rw [Function.iterate_succ_apply', h36, initialPlayer_eq]
  simp only [updatePlayer, if_true, hland]

theorem updatePlayer_grounded (p : Player) (h : p.isJumping = false) : updatePlayer p = p := by
  simp [updatePlayer, h]

theorem flight_after_landing (n : Nat) (hn : 37 ≤ n) :
    updatePlayer^[n] jumpedPlayer = initialGame.player := by
  obtain ⟨k, rfl⟩ : ∃ k, n = 37 + k := ⟨n - 37, by omega⟩
  induction k with
  | zero => exact flight_landing
  | succ j ih =>
    have hprev := ih (by omega)
    show updatePlayer^[(37 + j) + 1] jumpedPlayer = initialGame.player
    rw [Function.iterate_succ_apply', hprev]
    exact updatePlayer_grounded _ rfl

/-- C26: with the shipped constants in exact arithmetic, a jump from the
grounded standing state (the Space key on the initial player) keeps the player
airborne for exactly 37 physics ticks: after each of the ticks 0 to 36 it is
airborne at `y = 290 - 15 n + 0.4 n (n + 1)`, on tick 37 it lands, clamped to
`groundY = 290` with velocity 0, and stays there; at every tick
`156.8 <= y <= 290`, the apex 156.8 being reached on tick 18. The physics tick
iterated here is the one `updateGame` applies to the player. -/
theorem jump_flight_37_ticks :
    (handleKeyDown true false "Space" initialGame.player).1 = jumpedPlayer ∧
    (∀ n : Nat, n ≤ 36 →
      (updatePlayer^[n] jumpedPlayer).isJumping = true ∧
      (updatePlayer^[n] jumpedPlayer).y = arcY n) ∧
    (updatePlayer^[37] jumpedPlayer).isJumping = false ∧
    (updatePlayer^[37] jumpedPlayer).y = 290 ∧
    (updatePlayer^[37] jumpedPlayer).velocityY = 0 ∧
    (updatePlayer^[37] jumpedPlayer).groundY = 290 ∧
    (∀ n : Nat, 1568 / 10 ≤ (updatePlayer^[n] jumpedPlayer).y ∧
      (updatePlayer^[n] jumpedPlayer).y ≤ 290) ∧
    (updatePlayer^[18] jumpedPlayer).y = 1568 / 10 ∧
    (∀ (env : TickEnv) (g : Game), (updateGame env g).1.player = updatePlayer g.player) := by
  have hland := flight_landing
  refine ⟨?_, fun n hn => ?_, ?_, ?_, ?_, ?_, fun n => ?_, ?_, updateGame_player⟩
  · simp [handleKeyDown, jumpedPlayer, initialGame]
  · rw [flight_closed_form n hn]
    exact ⟨rfl, rfl⟩
  · rw [hland, initialPlayer_eq]
  · rw [hland, initialPlayer_eq]
  · rw [hland, initialPlayer_eq]
  · rw [hland, initialPlayer_eq]
  · by_cases hn : n ≤ 36
    · rw [flight_closed_form n hn]
      refine ⟨arcY_ge_apex n, ?_⟩
      show arcY n ≤ 290
      rcases Nat.eq_zero_or_pos n with h0 | hpos
      · subst h0
        norm_num [arcY]
      · exact le_of_lt (arcY_lt_ground n hpos hn)
    · rw [flight_after_landing n (by omega), initialPlayer_eq]
      norm_num
  · rw [flight_closed_form 18 (by norm_num)]
    show arcY 18 = 1568 / 10
    norm_num [arcY]

/-! ## C27: the order of the cull test and the collision test -/

theorem updatePlayer_column (p : Player) (h : AtPlayerColumn p) :
    AtPlayerColumn (updatePlayer p) := by
  have hsame : (updatePlayer p).x = p.x ∧ (updatePlayer p).width = p.width := by
    unfold updatePlayer
    simp only
    split_ifs <;> exact ⟨rfl, rfl⟩
  unfold AtPlayerColumn at h ⊢
  rw [hsame.1, hsame.2]
  exact h

theorem handleKeyDown_column (r q : Bool) (code : String) (p : Player) (h : AtPlayerColumn p) :
    AtPlayerColumn (handleKeyDown r q code p).1 := by
  have hsame : ((handleKeyDown r q code p).1).x = p.x ∧ ((handleKeyDown r q code p).1).width = p.width := by
    unfold handleKeyDown
    split_ifs <;> exact ⟨rfl, rfl⟩
  unfold AtPlayerColumn at h ⊢
  rw [hsame.1, hsame.2]
  exact h

theorem handleKeyUp_column (code : String) (p : Player) (h : AtPlayerColumn p) :
    AtPlayerColumn (handleKeyUp code p) := by
  have hsame : (handleKeyUp code p).x = p.x ∧ (handleKeyUp code p).width = p.width := by
    unfold handleKeyUp
    split_ifs <;> exact ⟨rfl, rfl⟩
  unfold AtPlayerColumn at h ⊢
  rw [hsame.1, hsame.2]
  exact h

theorem handleTouchStart_column (r q : Bool) (ty ch : ℚ) (p : Player)
    (h : AtPlayerColumn p) : AtPlayerColumn (handleTouchStart r q ty ch p).1 := by
  have hsame : ((handleTouchStart r q ty ch p).1).x = p.x ∧ ((handleTouchStart r q ty ch p).1).width = p.width := by
    unfold handleTouchStart
    split_ifs <;> exact ⟨rfl, rfl⟩
  unfold AtPlayerColumn at h ⊢
  rw [hsame.1, hsame.2]
  exact h

theorem handleTouchEnd_column (p : Player) (h : AtPlayerColumn p) :
    AtPlayerColumn (handleTouchEnd p) := by
  have hsame : (handleTouchEnd p).x = p.x ∧ (handleTouchEnd p).width = p.width := by
    unfold handleTouchEnd
    split_ifs <;> exact ⟨rfl, rfl⟩
  unfold AtPlayerColumn at h ⊢
  rw [hsame.1, hsame.2]
  exact h

theorem step_column (g : Game) (i : Input) (h : AtPlayerColumn g.player) :
    AtPlayerColumn (step g i).player := by
  cases i with
  | keyDown r q code => exact handleKeyDown_column r q code g.player h
  | keyUp code => exact handleKeyUp_column code g.player h
  | touchStart r q ty ch => exact handleTouchStart_column r q ty ch g.player h
  | touchEnd => exact handleTouchEnd_column g.player h
  | tick env =>
    show AtPlayerColumn (updateGame env g).1.player
    rw [updateGame_player]
    exact updatePlayer_column g.player h

theorem run_column (g : Game) (inputs : List Input) (h : AtPlayerColumn g.player) :
    AtPlayerColumn (run g inputs).player := by
  induction inputs generalizing g with
  | nil => simpa [run] using h
  | cons i rest ih =>
    have h2 := ih (step g i) (step_column g i h)
    simpa [run] using h2

theorem initialGame_column : AtPlayerColumn initialGame.player := by
  constructor
  · rfl
  · norm_num [initialGame, PLAYER_WIDTH]

/-- For a player in the player column, an obstacle whose trailing edge is
left of 0 does not overlap the player. -/
theorem column_cull_excludes_collision (p : Player) (o : Obstacle) (h : AtPlayerColumn p)
    (hcull : o.x + o.width < 0) : checkCollision p.rect o.rect = false := by
  rw [← Bool.not_eq_true, checkCollision_iff]
  rintro ⟨h1, _, _, _⟩
  simp only [Player.rect, Obstacle.rect, h.1] at h1
  linarith

theorem obstacleCallbackCollisionFirst_eq (speed : ℚ) (p : Player) (score : Int)
    (o : Obstacle) (h : AtPlayerColumn p) :
    obstacleCallbackCollisionFirst speed p score o = obstacleCallback speed p score o := by
  by_cases hcull : (advance speed o).x + (advance speed o).width < 0
  · have hmiss := column_cull_excludes_collision p (advance speed o) h hcull
    simp only [advance] at hcull hmiss
    simp [obstacleCallbackCollisionFirst, obstacleCallback, hcull, hmiss]
  · simp only [advance] at hcull
    simp only [obstacleCallbackCollisionFirst, obstacleCallback, hcull, if_false]

theorem filterObstaclesCollisionFirst_eq (speed : ℚ) (p : Player) (obs : List Obstacle)
    (score : Int) (h : AtPlayerColumn p) :
    filterObstaclesCollisionFirst speed p obs score = filterObstacles speed p obs score := by
  induction obs generalizing score with
  | nil => rfl
  | cons o rest ih =>
    simp only [filterObstaclesCollisionFirst, filterObstacles,
      obstacleCallbackCollisionFirst_eq speed p score o h, ih]

/-- C27: in every player state reachable in play, from the initial state by
any sequence of inputs and ticks, the player is at `x = 100` with width 40;
for such a player and every obstacle (of positive width or not) the cull
condition `x + width < 0` and `checkCollision(player, obstacle)` are never both
true; so testing the collision before the cull gives, for every obstacle and
for the whole pass, the same kept obstacles, the same score and the same
calls as the order the code uses. -/
theorem cull_and_collision_never_both (inputs : List Input) :
    (run initialGame inputs).player.x = 100 ∧
    (run initialGame inputs).player.width = 40 ∧
    (∀ o : Obstacle,
      ¬(o.x + o.width < 0 ∧
        checkCollision (run initialGame inputs).player.rect o.rect = true)) ∧
    (∀ (speed : ℚ) (score : Int) (o : Obstacle),
      obstacleCallbackCollisionFirst speed (run initialGame inputs).player score o =
        obstacleCallback speed (run initialGame inputs).player score o) ∧
    (∀ (speed : ℚ) (score : Int) (obs : List Obstacle),
      filterObstaclesCollisionFirst speed (run initialGame inputs).player obs score =
        filterObstacles speed (run initialGame inputs).player obs score) := by
  have hcol := run_column initialGame inputs initialGame_column
  refine ⟨hcol.1, hcol.2, fun o => ?_, fun speed score o => ?_, fun speed score obs => ?_⟩
  · rintro ⟨hcull, hhit⟩
    rw [column_cull_excludes_collision _ o hcol hcull] at hhit
    cases hhit
  · exact obstacleCallbackCollisionFirst_eq speed _ score o hcol
  · exact filterObstaclesCollisionFirst_eq speed _ obs score hcol

/-! ## C7: an obstacle that overlaps the player at the left edge -/

/-- C7: in the per-tick obstacle update, for every player hitbox the game can
have (the player after any sequence of inputs and ticks from the initial
state) and every obstacle that after advancement overlaps the player hitbox,
the obstacle is treated as a collision: it is removed, the game over is
raised with the current score, the score is left as it was and no
pass-through bonus is credited or reported. This holds whether or not one
also supposes `x + width < 0`; in fact an overlapping obstacle never
satisfies `x + width < 0`, so the cull test, which the callback makes first,
cannot take such an obstacle away from the collision test. -/
theorem overlapping_obstacle_is_collision (inputs : List Input) (speed : ℚ) (score : Int)
    (o : Obstacle)
    (hoverlap :
      checkCollision (run initialGame inputs).player.rect (advance speed o).rect = true) :
    ¬((advance speed o).x + (advance speed o).width < 0) ∧
    obstacleCallback speed (run initialGame inputs).player score o =
      { keep := false
        obstacle := advance speed o
        score := score
        events := [Event.sound Sound.collision, Event.gameOver score] } ∧
    gameOverScores (obstacleCallback speed (run initialGame inputs).player score o).events
      = [score] ∧
    scoreUpdates (obstacleCallback speed (run initialGame inputs).player score o).events
      = [] := by
  have hcol := run_column initialGame inputs initialGame_column
  have hnot : ¬((advance speed o).x + (advance speed o).width < 0) := by
    intro hcull
    rw [column_cull_excludes_collision _ (advance speed o) hcol hcull] at hoverlap
    cases hoverlap
  have hhit : isHit speed (run initialGame inputs).player o = true := by
    simp only [isHit, isCulled, Bool.and_eq_true, Bool.not_eq_true', decide_eq_false_iff_not]
    exact ⟨hnot, hoverlap⟩
  rw [obstacleCallback_hit speed _ score o hhit]
  exact ⟨hnot, rfl, rfl, rfl⟩

/-- Witness for C7: the player ducks (ArrowDown in a running game) and a
ground obstacle advances from `x = 125` to `x = 120`, into the player. -/
theorem overlapping_obstacle_is_collision_witness :
    obstacleCallback 5 (run initialGame [Input.keyDown true false "ArrowDown"]).player 0
        { newObstacle 1 ObstacleType.high with x := 125 } =
      { keep := false
        obstacle := advance 5 { newObstacle 1 ObstacleType.high with x := 125 }
        score := 0
        events := [Event.sound Sound.collision, Event.gameOver 0] } := by
  have hrun : (run initialGame [Input.keyDown true false "ArrowDown"]).player =
      duck initialGame.player := by
    simp [run, step, handleKeyDown, initialGame]
  have hoverlap :
      checkCollision (run initialGame [Input.keyDown true false "ArrowDown"]).player.rect
        (advance 5 { newObstacle 1 ObstacleType.high with x := 125 }).rect = true := by
    rw [hrun]
    norm_num [duck, initialGame, newObstacle, advance, checkCollision, Player.rect,
      Obstacle.rect, CANVAS_HEIGHT, CANVAS_WIDTH, PLAYER_HEIGHT, PLAYER_WIDTH, OBSTACLE_HEIGHT,
      OBSTACLE_WIDTH]
  exact (overlapping_obstacle_is_collision [Input.keyDown true false "ArrowDown"] 5 0
    { newObstacle 1 ObstacleType.high with x := 125 } hoverlap).2.1

end InfinityChaser
